import Mathlib

/-!
# Verification of the feed_me worker pipeline

Shallow embedding of the cohort-velocity classifier, post-lifecycle state
machine, queue worker, circuit breaker and alert-candidate engine of the
`feed_me` repository (`apps/worker/app/{sync,cli,db}.py`), together with
proofs about the embedded definitions.

Modelling conventions:
* Python ints/floats that carry post metrics and per-day velocities are
  modelled as `ℚ` (the arithmetic the source performs on them is exact
  rational arithmetic on integer counts).
* Timestamps are modelled as `ℚ` (seconds since the epoch).
* Python `None` becomes `Option`.
* Tag strings are the emoji literals of the source
  (`🚀`, `🔥`, `✅`, `😴`, `👀`, `☘️`).
* SQL tables are modelled as Lean lists of row structures; the order of a
  list stands for an arbitrary but fixed result order of the SQL queries.
-/

/-- Python's `round` (round half to even), as in `int(round(x))` of
`_percentile` (sync.py). -/
def pyRound (q : ℚ) : ℤ :=
  if q - ⌊q⌋ < 1/2 then ⌊q⌋
  else if 1/2 < q - ⌊q⌋ then ⌊q⌋ + 1
  else if ⌊q⌋ % 2 = 0 then ⌊q⌋ else ⌊q⌋ + 1

/-- `sorted(set(values), reverse=True)` of `_percentile`:
the distinct pool values in descending order. -/
def uniqDesc (values : List ℚ) : List ℚ :=
  List.insertionSort (· ≥ ·) values.dedup

/-- The rank loop of `_percentile`:
`rank = len(uniq); for i, v in enumerate(uniq, 1): if value >= v: rank = i; break`. -/
def pyRank (uniq : List ℚ) (value : ℚ) : ℕ :=
  match uniq.findIdx? (fun v => decide (value ≥ v)) with
  | some i => i + 1
  | none => uniq.length

/-- Embedding of `_percentile(values, value)` (sync.py): dense-rank
percentile over the distinct pool values, `50%` for a single-value pool,
clamped to `[1,100]`, rendered as `"p%"`. -/
def percentileOf (values : List ℚ) (value : ℚ) : Option String :=
  if values = [] then none else
  if uniqDesc values = [] then none else
  if (uniqDesc values).length = 1 then some "50%" else
  some (toString (max 1 (min 100 (pyRound (1 +
    ((pyRank (uniqDesc values) value : ℚ) - 1) * 99 /
    (((uniqDesc values).length : ℚ) - 1))))) ++ "%")

/-- Decimal-digit run parser used to model Python `int(str)`. -/
def digitsVal : List Char → Option ℕ
  | [] => none
  | cs =>
    if cs.all Char.isDigit then
      some (cs.foldl (fun acc c => 10 * acc + (c.toNat - '0'.toNat)) 0)
    else none

/-- Python `str.strip()` / the whitespace stripping of `int(str)`
(character-level model). -/
def pyStrip (s : String) : String :=
  String.mk (((s.data.dropWhile Char.isWhitespace).reverse.dropWhile
    Char.isWhitespace).reverse)

/-- Python `str.replace("%", "")`: every occurrence of the one-character
pattern removed. -/
def stripPct (s : String) : String :=
  String.mk (s.data.filter (fun c => c ≠ '%'))

/-- Python `str.lower()` (ASCII model). -/
def pyLower (s : String) : String :=
  String.mk (s.data.map Char.toLower)

/-- Model of Python `int(s)` for the strings this pipeline produces
(optionally signed decimal literals, surrounding whitespace stripped);
any other shape raises in Python and is `none` here. -/
def pyParseInt (s : String) : Option ℤ :=
  match (pyStrip s).data with
  | '-' :: rest => (digitsVal rest).map (fun n => -(n : ℤ))
  | '+' :: rest => (digitsVal rest).map (fun n => (n : ℤ))
  | l => (digitsVal l).map (fun n => (n : ℤ))

/-- Embedding of `_velocity_tag(percentile)` (sync.py): parse the
percentile string (falsy `None`/`""` parse to nothing, as does a parse
failure) and map it through the fixed percentile bands. -/
def velocityTag (percentile : Option String) : String :=
  let p : Option ℤ :=
    match percentile with
    | none => none
    | some s => if s = "" then none else pyParseInt (stripPct s)
  match p with
  | none => "✅"
  | some p =>
    if p ≤ 5 then "🚀"
    else if p ≤ 15 then "🔥"
    else if p ≤ 35 then "✅"
    else if 35 < p then "😴"
    else "✅"

/-- The closed velocity-tag vocabulary emitted by `_velocity_tag`. -/
def tagVocab : List String := ["🚀", "🔥", "✅", "😴"]

theorem uniqDesc_mem (values : List ℚ) (x : ℚ) :
    x ∈ uniqDesc values ↔ x ∈ values := by
  unfold uniqDesc
  rw [(List.perm_insertionSort _ _).mem_iff, List.mem_dedup]

theorem uniqDesc_length_dedup (values : List ℚ) :
    (uniqDesc values).length = values.dedup.length :=
  (List.perm_insertionSort _ _).length_eq

theorem uniqDesc_ne_nil (values : List ℚ) (h : values ≠ []) :
    uniqDesc values ≠ [] := by
  intro hnil
  apply h
  have hlen := uniqDesc_length_dedup values
  rw [hnil] at hlen
  exact (List.dedup_eq_nil values).mp (List.length_eq_zero.mp hlen.symm)

theorem pyRound_bounds {q : ℚ} (h1 : 1 ≤ q) (h100 : q ≤ 100) :
    1 ≤ pyRound q ∧ pyRound q ≤ 100 := by
  have hf1 : (1 : ℤ) ≤ ⌊q⌋ := Int.le_floor.mpr (by exact_mod_cast h1)
  have hfq : (⌊q⌋ : ℚ) ≤ q := Int.floor_le q
  have hf100 : ⌊q⌋ ≤ 100 := by
    have : (⌊q⌋ : ℚ) ≤ 100 := le_trans hfq h100
    exact_mod_cast this
  unfold pyRound
  by_cases hlt : q - ⌊q⌋ < 1/2
  · rw [if_pos hlt]
    exact ⟨hf1, hf100⟩
  · have hhalf : (1 : ℚ)/2 ≤ q - ⌊q⌋ := le_of_not_lt hlt
    have hf99 : ⌊q⌋ ≤ 99 := by
      have hc : (⌊q⌋ : ℚ) < 100 := by linarith
      have : ⌊q⌋ < (100 : ℤ) := by exact_mod_cast hc
      omega
    rw [if_neg hlt]
    split
    · exact ⟨by omega, by omega⟩
    · split
      · exact ⟨by omega, by omega⟩
      · exact ⟨by omega, by omega⟩

theorem pyRank_pred_eq (uniq : List ℚ) (value : ℚ) :
    pyRank uniq value =
      (match uniq.findIdx? (fun v => decide (v ≤ value)) with
        | some i => i + 1
        | none => uniq.length) := by
  have hp : (fun v : ℚ => decide (value ≥ v)) = (fun v => decide (v ≤ value)) :=
    funext fun v => decide_eq_decide.mpr ge_iff_le
  rw [pyRank, hp]

theorem pyRank_of_exists (uniq : List ℚ) (value : ℚ)
    (hex : ∃ v ∈ uniq, v ≤ value) :
    pyRank uniq value = uniq.findIdx (fun v => decide (v ≤ value)) + 1 := by
  rw [pyRank_pred_eq]
  have hsome : (uniq.findIdx? (fun v => decide (v ≤ value))).isSome := by
    rw [List.findIdx?_isSome, List.any_eq_true]
    obtain ⟨v, hv, hle⟩ := hex
    exact ⟨v, hv, decide_eq_true hle⟩
  rcases h : uniq.findIdx? (fun v => decide (v ≤ value)) with _ | i
  · rw [h] at hsome; simp at hsome
  · have heq := List.findIdx_eq_findIdx? (fun v => decide (v ≤ value)) uniq
    rw [h] at heq
    have h2 : uniq.findIdx (fun v => decide (v ≤ value)) = i := by rw [heq]
    rw [h2]

theorem pyRank_bounds (uniq : List ℚ) (value : ℚ) (h : uniq ≠ []) :
    1 ≤ pyRank uniq value ∧ pyRank uniq value ≤ uniq.length := by
  rw [pyRank_pred_eq]
  rcases hidx : uniq.findIdx? (fun v => decide (v ≤ value)) with _ | i
  · show 1 ≤ uniq.length ∧ uniq.length ≤ uniq.length
    have : 0 < uniq.length := List.length_pos.mpr h
    omega
  · show 1 ≤ i + 1 ∧ i + 1 ≤ uniq.length
    have hsome : (uniq.findIdx? (fun v => decide (v ≤ value))).isSome := by
      rw [hidx]; rfl
    rw [List.findIdx?_isSome, List.any_eq_true] at hsome
    obtain ⟨v, hv, hle⟩ := hsome
    have hlt := @List.findIdx_lt_length_of_exists ℚ (fun v => decide (v ≤ value)) uniq ⟨v, hv, hle⟩
    have heq := List.findIdx_eq_findIdx? (fun v => decide (v ≤ value)) uniq
    rw [hidx] at heq
    have h2 : uniq.findIdx (fun v => decide (v ≤ value)) = i := by rw [heq]
    rw [h2] at hlt
    omega

/-- C2: for every non-empty cohort pool, the classifier returns `50%` when
the pool has a single unique value; otherwise (given some unique value
`≤` the post's metric-per-day exists, as the claim presupposes) it returns
`round(1 + (r−1)·99/(U−1))` rendered as a percent string, where `r` is the
1-based index of the first unique value `≤` the metric-per-day in the
descending unique pool and `U` the unique count; the result always lies in
`[1,100]`; and a metric-per-day at least every pool value yields `1%`
(top performer).  `round` is Python's round-half-to-even. -/
theorem percentile_dense_rank_claim (values : List ℚ) (value : ℚ) (hne : values ≠ []) :
    ((uniqDesc values).length = 1 → percentileOf values value = some "50%")
    ∧ (2 ≤ (uniqDesc values).length →
        (∃ v ∈ uniqDesc values, v ≤ value) →
        percentileOf values value =
          some (toString (pyRound (1 +
            ((((uniqDesc values).findIdx (fun v => decide (v ≤ value)) + 1 : ℕ) : ℚ) - 1) * 99 /
            (((uniqDesc values).length : ℚ) - 1))) ++ "%"))
    ∧ (∃ p : ℤ, percentileOf values value = some (toString p ++ "%") ∧ 1 ≤ p ∧ p ≤ 100)
    ∧ ((∀ v ∈ values, v ≤ value) → 2 ≤ (uniqDesc values).length →
        percentileOf values value = some "1%") := by
  have hu := uniqDesc_ne_nil values hne
  have hq_bounds : 2 ≤ (uniqDesc values).length →
      1 ≤ (1 + ((pyRank (uniqDesc values) value : ℚ) - 1) * 99 /
        (((uniqDesc values).length : ℚ) - 1)) ∧
      (1 + ((pyRank (uniqDesc values) value : ℚ) - 1) * 99 /
        (((uniqDesc values).length : ℚ) - 1)) ≤ 100 := by
    intro hU
    obtain ⟨hr1, hrU⟩ := pyRank_bounds (uniqDesc values) value hu
    have hUq : (2 : ℚ) ≤ ((uniqDesc values).length : ℚ) := by exact_mod_cast hU
    have hrq : (1 : ℚ) ≤ (pyRank (uniqDesc values) value : ℚ) := by exact_mod_cast hr1
    have hrUq : ((pyRank (uniqDesc values) value : ℚ)) ≤ ((uniqDesc values).length : ℚ) := by
      exact_mod_cast hrU
    have hb : (0 : ℚ) < ((uniqDesc values).length : ℚ) - 1 := by linarith
    have ha : (0 : ℚ) ≤ (pyRank (uniqDesc values) value : ℚ) - 1 := by linarith
    constructor
    · have : (0:ℚ) ≤ ((pyRank (uniqDesc values) value : ℚ) - 1) * 99 /
          (((uniqDesc values).length : ℚ) - 1) :=
        div_nonneg (mul_nonneg ha (by norm_num)) hb.le
      linarith
    · have hfrac : ((pyRank (uniqDesc values) value : ℚ) - 1) * 99 /
          (((uniqDesc values).length : ℚ) - 1) ≤ 99 := by
        rw [div_le_iff₀ hb]
        nlinarith
      linarith
  have key : 2 ≤ (uniqDesc values).length →
      percentileOf values value =
        some (toString (pyRound (1 + ((pyRank (uniqDesc values) value : ℚ) - 1) * 99 /
          (((uniqDesc values).length : ℚ) - 1))) ++ "%") := by
    intro hU
    obtain ⟨hq1, hq100⟩ := hq_bounds hU
    obtain ⟨hp1, hp100⟩ := pyRound_bounds hq1 hq100
    rw [percentileOf, if_neg hne, if_neg hu, if_neg (by omega)]
    rw [min_eq_right hp100, max_eq_right hp1]
  refine ⟨?_, ?_, ?_, ?_⟩
  · intro h1
    rw [percentileOf, if_neg hne, if_neg hu, if_pos h1]
  · intro hU hex
    rw [key hU, pyRank_of_exists (uniqDesc values) value hex]
  · have hcases : (uniqDesc values).length = 1 ∨ 2 ≤ (uniqDesc values).length := by
      have := List.length_pos.mpr hu
      omega
    rcases hcases with h1 | hU
    · refine ⟨50, ?_, by norm_num, by norm_num⟩
      rw [percentileOf, if_neg hne, if_neg hu, if_pos h1]
      rfl
    · obtain ⟨hq1, hq100⟩ := hq_bounds hU
      obtain ⟨hp1, hp100⟩ := pyRound_bounds hq1 hq100
      exact ⟨_, key hU, hp1, hp100⟩
  · intro hall hU
    obtain ⟨a, t, hat⟩ := List.exists_cons_of_ne_nil hu
    have hex : ∃ v ∈ uniqDesc values, v ≤ value := by
      refine ⟨a, by rw [hat]; exact List.mem_cons_self a t, ?_⟩
      exact hall a ((uniqDesc_mem values a).mp (by rw [hat]; exact List.mem_cons_self a t))
    rw [key hU, pyRank_of_exists (uniqDesc values) value hex]
    have hfind : (uniqDesc values).findIdx (fun v => decide (v ≤ value)) = 0 := by
      rw [hat, List.findIdx_cons]
      have hpa : decide (a ≤ value) = true := by
        refine decide_eq_true ?_
        exact hall a ((uniqDesc_mem values a).mp (by rw [hat]; exact List.mem_cons_self a t))
      rw [hpa]
      rfl
    rw [hfind]
    have hq : (1 + (((0 + 1 : ℕ) : ℚ) - 1) * 99 / (((uniqDesc values).length : ℚ) - 1)) = 1 := by
      norm_num
    rw [hq]
    have hone : pyRound 1 = 1 := by norm_num [pyRound]
    rw [hone]
    rfl

/-- Witness for `percentile_dense_rank_claim`: a pool whose maximum the
post attains is ranked `1%`. -/
theorem percentile_dense_rank_claim_witness :
    percentileOf [3, 1, 2] 7 = some "1%" :=
  (percentile_dense_rank_claim [3, 1, 2] 7 (List.cons_ne_nil _ _)).2.2.2
    (by intro v hv; fin_cases hv <;> norm_num)
    (by norm_num [uniqDesc, List.insertionSort, List.orderedInsert, List.dedup, List.pwFilter])

/-- The spec's dense-rank scenario: pool with 11 unique values sorted
descending, a post with metric-per-day 80 ranks 2nd and gets `11%`. -/
theorem percentile_spec_scenario :
    percentileOf [100, 80, 80, 60, 40, 30, 20, 10, 5, 4, 3, 2] 80 = some "11%" := by
  norm_num [percentileOf, uniqDesc, pyRank, List.insertionSort, List.orderedInsert, List.dedup,
    List.pwFilter, List.findIdx?, pyRound]
  exact ⟨List.cons_ne_nil _ _, List.cons_ne_nil _ _, rfl⟩

/-- The band mapping the claim states for a parsed percentile `p`. -/
def claimBandTag (p : ℤ) : String :=
  if p ≤ 5 then "🚀" else if p ≤ 15 then "🔥" else if p ≤ 35 then "✅" else "😴"

/-- Every `_velocity_tag` output is one of the four band emoji. -/
theorem velocityTag_mem_vocab (o : Option String) : velocityTag o ∈ tagVocab := by
  rw [show velocityTag o = (match (match o with
      | none => none
      | some s => if s = "" then none else pyParseInt (stripPct s) : Option ℤ) with
    | none => "✅"
    | some p =>
      if p ≤ 5 then "🚀"
      else if p ≤ 15 then "🔥"
      else if p ≤ 35 then "✅"
      else if 35 < p then "😴"
      else "✅") from rfl]
  rcases (match o with
      | none => none
      | some s => if s = "" then none else pyParseInt (stripPct s) : Option ℤ) with _ | p
  · simp [tagVocab]
  · simp only []
    split_ifs <;> simp [tagVocab]

/-- C3 (counterexample): an absent percentile does not yield an empty
tag — `_velocity_tag(None)` is the default `✅`, refuting the claim's
"an empty (absent) percentile yields an empty tag". -/
theorem velocity_tag_counterexample :
    velocityTag none = "✅" ∧ velocityTag none ≠ "" ∧ velocityTag (some "") = "✅" := by
  refine ⟨rfl, ?_, rfl⟩
  intro h
  simp [velocityTag] at h

/-- C3 (amended): the velocity tag mapping is a total function of the
percentile with bands `p ≤ 5 → 🚀`, `p ≤ 15 → 🔥`, `p ≤ 35 → ✅`,
`p > 35 → 😴`, bit-exactly from the closed vocabulary; an empty (absent,
or unparseable) percentile yields the default tag `✅` (not the empty
tag). -/
theorem velocity_tag_total_map_claim :
    (∀ (s : String) (p : ℤ), s ≠ "" → pyParseInt (stripPct s) = some p →
      velocityTag (some s) = claimBandTag p)
    ∧ velocityTag none = "✅"
    ∧ velocityTag (some "") = "✅"
    ∧ (∀ o : Option String, velocityTag o ∈ tagVocab) := by
  refine ⟨?_, rfl, rfl, ?_⟩
  · intro s p hs hp
    simp only [velocityTag, if_neg hs, hp, claimBandTag]
    split_ifs with h1 h2 h3 h4
    · rfl
    · rfl
    · rfl
    · rfl
    · omega
  · exact velocityTag_mem_vocab

/-- Witness for `velocity_tag_total_map_claim`: percentile `"11%"`
parses to 11 and maps to `🔥`. -/
theorem velocity_tag_total_map_claim_witness :
    velocityTag (some "11%") = "🔥" := by
  have h := velocity_tag_total_map_claim.1 "11%" 11 (by decide) (by decide)
  rw [h]
  rfl

/-- `pat in s` on Python strings (character-level substring test). -/
def strContains (s pat : String) : Bool :=
  decide (pat.data <:+: s.data)

/-- `s.startswith(pat)` (character-level). -/
def strStartsWith (s pat : String) : Bool :=
  decide (pat.data <+: s.data)

/-- Python `a or dflt` for an optional string (`None` and `""` falsy). -/
def orElseStr (a : Option String) (dflt : String) : String :=
  match a with
  | some s => if s = "" then dflt else s
  | none => dflt

/-- Embedding of `_is_high_tag(tag)` (sync.py): a hot tag contains 🔥
or 🚀; falsy tags (`None`, `""`) are not hot. -/
def isHighTag (tag : Option String) : Bool :=
  match tag with
  | none => false
  | some t => if t = "" then false else (strContains t "🔥" || strContains t "🚀")

/-- `_checkpoint_days(checkpoint)` (sync.py):
`{"d1": 1, "d3": 3, "d7": 7, "d21": 21}.get(checkpoint, 0)`. -/
def checkpointDays (cp : String) : ℤ :=
  if cp = "d1" then 1 else if cp = "d3" then 3 else if cp = "d7" then 7
  else if cp = "d21" then 21 else 0

/-- `_min_cohort_size(checkpoint)` (sync.py):
`12 if checkpoint == "d1" else 20`. -/
def minCohortSize (cp : String) : ℕ :=
  if cp = "d1" then 12 else 20

/-- `_stage_label(checkpoint, age_hours)` (sync.py). -/
def stageLabel (cp : String) (ageHours : ℚ) : String :=
  if cp = "d1" then (if ageHours < 24 then "D1" else "D2")
  else if cp = "d3" then "D3"
  else if cp = "d7" then "D7"
  else if cp = "d21" then "D21"
  else "D1"

/-- `_checkpoint_from_age(age_hours)` (sync.py), first component. -/
def checkpointFromAge (ageHours : ℚ) : String :=
  if ageHours < 48 then "d1"
  else if ageHours < 168 then "d3"
  else if ageHours < 504 then "d7"
  else "d21"

/-- One nullable `(views, likes, comments)` checkpoint triple of a
`post_snapshots` row. -/
structure Triple where
  views : Option ℤ
  likes : Option ℤ
  comments : Option ℤ
deriving DecidableEq

/-- The all-`NULL` triple (a checkpoint column never written). -/
def Triple.empty : Triple := ⟨none, none, none⟩

/-- A `post_snapshots` row for one `(subscriber, handle)` scope (db.py):
four nullable checkpoint triples, first-write-wins `media_type` and
checkpoint timestamps. -/
structure SnapRow where
  postUrl : String
  mediaType : Option String
  postedAt : Option ℚ
  d1 : Triple
  d3 : Triple
  d7 : Triple
  d21 : Triple
  d1At : Option ℚ
  d3At : Option ℚ
  d7At : Option ℚ
  d21At : Option ℚ
deriving DecidableEq

/-- The scraper-item fields the classifier consults: `item.get("type")`,
`item.get("mediaType")`, and the posted-at timestamp chain
(`timestamp or takenAtTimestamp or takenAt or createdAt`) already parsed
by `_to_dt`. -/
structure Item where
  itemType : Option String
  itemMediaType : Option String
  postedAt : Option ℚ
deriving DecidableEq

/-- `(item.get("type") or item.get("mediaType") or "")` of
`_metric_value`. -/
def itemMediaStr (item : Item) : String :=
  orElseStr item.itemType (orElseStr item.itemMediaType "")

/-- Core of `_metric_value` (sync.py) on an already-extracted media
string: views for video/reel, likes+2·comments for sidecar/carousel,
likes otherwise (`x or 0` collapses `None` to 0). -/
def metricValueM (media : String) (views likes comments : Option ℤ) : ℚ :=
  let m := pyLower media
  if strContains m "video" || strContains m "reel" then
    ((views.getD 0 : ℤ) : ℚ)
  else if strContains m "sidecar" || strContains m "carousel" then
    ((likes.getD 0 : ℤ) : ℚ) + 2 * ((comments.getD 0 : ℤ) : ℚ)
  else ((likes.getD 0 : ℤ) : ℚ)

/-- `_metric_value(item, views, likes, comments)` (sync.py). -/
def metricValue (item : Item) (views likes comments : Option ℤ) : ℚ :=
  metricValueM (itemMediaStr item) views likes comments

/-- The checkpoint-column selection of `_metric_for_checkpoint` /
`_velocity_pool` / `upsert_snapshot` field maps. -/
def snapTriple (snap : SnapRow) (cp : String) : Option Triple :=
  if cp = "d1" then some snap.d1 else if cp = "d3" then some snap.d3
  else if cp = "d7" then some snap.d7 else if cp = "d21" then some snap.d21
  else none

/-- `_metric_for_checkpoint(snap, item, checkpoint)` (sync.py): `None`
when the checkpoint is unknown or its triple is all-`NULL`, else the
item-media metric of the stored triple. -/
def metricForCheckpoint (snap : SnapRow) (item : Item) (cp : String) : Option ℚ :=
  match snapTriple snap cp with
  | none => none
  | some t =>
    if t.views = none ∧ t.likes = none ∧ t.comments = none then none
    else some (metricValue item t.views t.likes t.comments)

/-- `(snap.get("media_type") or item.get("type") or item.get("mediaType")
or "").lower()` as computed inside `_velocity_from_snapshots` and the d21
gate of `_apply_velocity`. -/
def mediaOf (snap : SnapRow) (item : Item) : String :=
  pyLower (orElseStr snap.mediaType (orElseStr item.itemType (orElseStr item.itemMediaType "")))

/-- Embedding of `_velocity_pool(subscriber, handle, media_type,
checkpoint)` (sync.py).  `table` holds the `post_snapshots` rows of the
`(subscriber, handle)` scope; the SQL keeps rows whose checkpoint triple
has any non-`NULL` value, Python then drops rows whose stored media type
loosely mismatches (substring in either direction, skipped when either
side is empty) and maps each to its metric-per-day.  (`_metric_value`
never returns `None`, so its `None` guard is vacuous.) -/
def velocityPoolRow (mediaType : String) (cp : String) (row : SnapRow) : Option ℚ :=
  match snapTriple row cp with
  | none => none
  | some t =>
    if t.views = none ∧ t.likes = none ∧ t.comments = none then none
    else
      let mtype := pyLower (row.mediaType.getD "")
      if mediaType ≠ "" ∧ mtype ≠ "" ∧ strContains mtype mediaType = false ∧
          strContains mediaType mtype = false then none
      else some (metricValueM mtype t.views t.likes t.comments / (checkpointDays cp : ℚ))

def velocityPool (table : List SnapRow) (mediaType : String) (cp : String) : List ℚ :=
  if checkpointDays cp ≤ 0 then [] else
  table.filterMap (velocityPoolRow mediaType cp)

/-- Embedding of `_velocity_tag_for_checkpoint(...)` (sync.py). -/
def velocityTagForCheckpoint (table : List SnapRow) (mediaType : String)
    (snap : SnapRow) (item : Item) (cp : String) : Option String :=
  if checkpointDays cp ≤ 0 then none else
  match metricForCheckpoint snap item cp with
  | none => none
  | some metric =>
    let pool := velocityPool table mediaType cp
    if pool = [] then none
    else if pool.length < minCohortSize cp then some "insufficient_data"
    else some (velocityTag (percentileOf pool (metric / (checkpointDays cp : ℚ))))

/-- Embedding of `_velocity_from_snapshots(...)` (sync.py), returning the
`(percentile, tag)` pair (the source's constant-`None` first tuple slot is
dropped). -/
def velocityFromSnapshots (table : List SnapRow) (snap : SnapRow) (item : Item)
    (cp : String) : Option String × String :=
  if checkpointDays cp ≤ 0 then (none, "") else
  match metricForCheckpoint snap item cp with
  | none => (none, "")
  | some currentMetric =>
    let mpd := currentMetric / (checkpointDays cp : ℚ)
    let pool := velocityPool table (mediaOf snap item) cp
    if pool = [] then (none, "")
    else if pool.length < minCohortSize cp then (none, "insufficient_data")
    else
      let percentile := percentileOf pool mpd
      let tag := velocityTag percentile
      -- Late bloomer: D1 was low, D7 is high
      let tag :=
        if cp = "d7" then
          (if (!isHighTag (velocityTagForCheckpoint table (mediaOf snap item) snap item "d1"))
              && isHighTag (some tag) then "☘️" ++ tag else tag)
        else tag
      (percentile, tag)

theorem strContains_self (s : String) : strContains s s = true :=
  decide_eq_true (List.infix_refl s.data)

theorem metricForCheckpoint_some (snap : SnapRow) (item : Item) (cp : String) (m : ℚ)
    (h : metricForCheckpoint snap item cp = some m) :
    ∃ t, snapTriple snap cp = some t
      ∧ ¬(t.views = none ∧ t.likes = none ∧ t.comments = none)
      ∧ m = metricValue item t.views t.likes t.comments := by
  unfold metricForCheckpoint at h
  rcases hst : snapTriple snap cp with _ | t
  · rw [hst] at h; exact absurd h (by simp)
  · rw [hst] at h
    have h' : (if t.views = none ∧ t.likes = none ∧ t.comments = none then none
        else some (metricValue item t.views t.likes t.comments)) = some m := h
    by_cases hnn : (t.views = none ∧ t.likes = none ∧ t.comments = none)
    · rw [if_pos hnn] at h'; exact absurd h' (by simp)
    · rw [if_neg hnn] at h'
      exact ⟨t, rfl, hnn, (Option.some_inj.mp h').symm⟩

/-- The classified post's own snapshot row always survives both pool
filters of `_velocity_pool` when queried with the media string
`(snap.media_type or fallback).lower()` that the classifier passes: its
per-day metric (computed from its own stored media type) is in the
pool. -/
theorem velocityPoolRow_self (row : SnapRow) (t : Triple) (w cp : String)
    (ht : snapTriple row cp = some t)
    (hnn : ¬(t.views = none ∧ t.likes = none ∧ t.comments = none)) :
    velocityPoolRow (pyLower (orElseStr row.mediaType w)) cp row
      = some (metricValueM (pyLower (row.mediaType.getD "")) t.views t.likes t.comments /
          (checkpointDays cp : ℚ)) := by
  rw [velocityPoolRow, ht]
  show (if t.views = none ∧ t.likes = none ∧ t.comments = none then none
      else
        let mtype := pyLower (row.mediaType.getD "")
        if pyLower (orElseStr row.mediaType w) ≠ "" ∧ mtype ≠ "" ∧
            strContains mtype (pyLower (orElseStr row.mediaType w)) = false ∧
            strContains (pyLower (orElseStr row.mediaType w)) mtype = false then none
        else some (metricValueM mtype t.views t.likes t.comments / (checkpointDays cp : ℚ)))
    = some (metricValueM (pyLower (row.mediaType.getD "")) t.views t.likes t.comments /
        (checkpointDays cp : ℚ))
  rw [if_neg hnn]
  show (if pyLower (orElseStr row.mediaType w) ≠ "" ∧ pyLower (row.mediaType.getD "") ≠ "" ∧
        strContains (pyLower (row.mediaType.getD "")) (pyLower (orElseStr row.mediaType w)) = false ∧
        strContains (pyLower (orElseStr row.mediaType w)) (pyLower (row.mediaType.getD "")) = false
      then none
      else some (metricValueM (pyLower (row.mediaType.getD "")) t.views t.likes t.comments /
        (checkpointDays cp : ℚ)))
    = some (metricValueM (pyLower (row.mediaType.getD "")) t.views t.likes t.comments /
        (checkpointDays cp : ℚ))
  rcases hmt : row.mediaType with _ | mt
  · rw [if_neg]
    intro hc
    exact hc.2.1 rfl
  · by_cases hemp : mt = ""
    · subst hemp
      rw [if_neg]
      intro hc
      exact hc.2.1 rfl
    · rw [if_neg]
      intro hc
      have harg : orElseStr (some mt) w = mt := by
        rw [orElseStr]
        exact if_neg hemp
      rw [harg] at hc
      simp only [Option.getD_some] at hc
      rw [strContains_self] at hc
      exact absurd hc.2.2.1 (by simp)

/-- The classified post's own snapshot row always survives both pool
filters of `_velocity_pool` when queried with the media string
`(snap.media_type or fallback).lower()` that the classifier passes: its
per-day metric (computed from its own stored media type) is in the
pool. -/
theorem own_mem_velocityPool (table : List SnapRow) (snap : SnapRow) (t : Triple)
    (w : String) (cp : String) (hmem : snap ∈ table) (hdays : 0 < checkpointDays cp)
    (ht : snapTriple snap cp = some t)
    (hnn : ¬(t.views = none ∧ t.likes = none ∧ t.comments = none)) :
    metricValueM (pyLower (snap.mediaType.getD "")) t.views t.likes t.comments /
      (checkpointDays cp : ℚ) ∈ velocityPool table (pyLower (orElseStr snap.mediaType w)) cp := by
  rw [velocityPool, if_neg (not_le.mpr hdays)]
  exact List.mem_filterMap.mpr ⟨snap, hmem, velocityPoolRow_self snap t w cp ht hnn⟩

/-- The pool the classifier ranks against is never empty once the post's
own row is stored with checkpoint data. -/
theorem velocityPool_ne_nil (table : List SnapRow) (snap : SnapRow) (item : Item)
    (cp : String) (m : ℚ) (hmem : snap ∈ table) (hdays : 0 < checkpointDays cp)
    (hm : metricForCheckpoint snap item cp = some m) :
    velocityPool table (mediaOf snap item) cp ≠ [] := by
  obtain ⟨t, ht, hnn, -⟩ := metricForCheckpoint_some snap item cp m hm
  have hmm := own_mem_velocityPool table snap t
    (orElseStr item.itemType (orElseStr item.itemMediaType "")) cp hmem hdays ht hnn
  intro hnil
  rw [show mediaOf snap item =
      pyLower (orElseStr snap.mediaType (orElseStr item.itemType (orElseStr item.itemMediaType "")))
      from rfl] at hnil
  rw [hnil] at hmm
  exact List.not_mem_nil _ hmm

/-- The sentinel branch of `_velocity_from_snapshots`: a non-empty pool
below the minimum cohort size yields `(None, "insufficient_data")`. -/
theorem velocityFromSnapshots_insufficient (table : List SnapRow) (snap : SnapRow)
    (item : Item) (cp : String) (m : ℚ) (hdays : 0 < checkpointDays cp)
    (hm : metricForCheckpoint snap item cp = some m)
    (hne : velocityPool table (mediaOf snap item) cp ≠ [])
    (hsmall : (velocityPool table (mediaOf snap item) cp).length < minCohortSize cp) :
    velocityFromSnapshots table snap item cp = (none, "insufficient_data") := by
  rw [velocityFromSnapshots, if_neg (not_le.mpr hdays), hm]
  show (if velocityPool table (mediaOf snap item) cp = [] then ((none : Option String), "")
    else if (velocityPool table (mediaOf snap item) cp).length < minCohortSize cp then
      (none, "insufficient_data")
    else _) = (none, "insufficient_data")
  rw [if_neg hne, if_pos hsmall]

/-- The empty-metric branch of `_velocity_from_snapshots`. -/
theorem velocityFromSnapshots_metric_none (table : List SnapRow) (snap : SnapRow)
    (item : Item) (cp : String) (hdays : 0 < checkpointDays cp)
    (hm : metricForCheckpoint snap item cp = none) :
    velocityFromSnapshots table snap item cp = (none, "") := by
  rw [velocityFromSnapshots, if_neg (not_le.mpr hdays), hm]

/-- The empty-pool branch of `_velocity_from_snapshots`. -/
theorem velocityFromSnapshots_pool_nil (table : List SnapRow) (snap : SnapRow)
    (item : Item) (cp : String) (m : ℚ) (hdays : 0 < checkpointDays cp)
    (hm : metricForCheckpoint snap item cp = some m)
    (hnil : velocityPool table (mediaOf snap item) cp = []) :
    velocityFromSnapshots table snap item cp = (none, "") := by
  rw [velocityFromSnapshots, if_neg (not_le.mpr hdays), hm]
  show (if velocityPool table (mediaOf snap item) cp = [] then ((none : Option String), "")
    else _) = (none, "")
  rw [if_pos hnil]

/-- C5: for every classification (a post whose snapshot row is stored and
whose checkpoint triple yields a metric) whose cohort pool is smaller than
the minimum cohort size — 12 for checkpoint `d1`, 20 for every other
checkpoint — the classifier emits the sentinel tag `insufficient_data`
and an empty percentile. -/
theorem small_cohort_sentinel_claim (table : List SnapRow) (snap : SnapRow) (item : Item)
    (cp : String) (m : ℚ) (hmem : snap ∈ table) (hdays : 0 < checkpointDays cp)
    (hm : metricForCheckpoint snap item cp = some m)
    (hsmall : (velocityPool table (mediaOf snap item) cp).length < minCohortSize cp) :
    velocityFromSnapshots table snap item cp = (none, "insufficient_data")
    ∧ minCohortSize "d1" = 12
    ∧ (∀ c : String, c ≠ "d1" → minCohortSize c = 20) := by
  refine ⟨?_, rfl, fun c hc => by rw [minCohortSize, if_neg hc]⟩
  exact velocityFromSnapshots_insufficient table snap item cp m hdays hm
    (velocityPool_ne_nil table snap item cp m hmem hdays hm) hsmall

/-- The concrete snapshot row used by witnesses below. -/
def wRow : SnapRow :=
  ⟨"u", none, none, ⟨some 5, none, none⟩, .empty, .empty, .empty, none, none, none, none⟩

/-- The concrete scraper item used by witnesses below. -/
def wItem : Item := ⟨none, none, none⟩

/-- Witness for `small_cohort_sentinel_claim`: a single-post pool at `d1`
(size 1 < 12) yields the sentinel and empty percentile. -/
theorem small_cohort_sentinel_claim_witness :
    velocityFromSnapshots [wRow] wRow wItem "d1" = (none, "insufficient_data") :=
  (small_cohort_sentinel_claim [wRow] wRow wItem "d1"
    (metricValue wItem (some 5) none none)
    (by decide) (by decide) rfl (by decide)).1

theorem strStartsWith_append_self (p s : String) : strStartsWith (p ++ s) p = true :=
  decide_eq_true ⟨s.data, (String.data_append p s).symm⟩

theorem vocab_not_clover (t : String) (h : t ∈ tagVocab) :
    strStartsWith t "☘️" = false := by
  simp only [tagVocab, List.mem_cons, List.not_mem_nil, or_false] at h
  rcases h with h | h | h | h <;> subst h <;> decide

/-- The `d7` percentile branch of `_velocity_from_snapshots` in closed
form: percentile of the pool at the post's metric-per-day, with the
late-bloomer ☘️ prefix exactly when the recomputed `d1` tag is not hot
and the `d7` band tag is hot. -/
theorem velocityFromSnapshots_d7_eq (table : List SnapRow) (snap : SnapRow) (item : Item)
    (m : ℚ) (hm : metricForCheckpoint snap item "d7" = some m)
    (hpool : velocityPool table (mediaOf snap item) "d7" ≠ [])
    (hbig : ¬ (velocityPool table (mediaOf snap item) "d7").length < minCohortSize "d7") :
    velocityFromSnapshots table snap item "d7" =
      (percentileOf (velocityPool table (mediaOf snap item) "d7") (m / (checkpointDays "d7" : ℚ)),
       if (!isHighTag (velocityTagForCheckpoint table (mediaOf snap item) snap item "d1"))
           && isHighTag (some (velocityTag (percentileOf
             (velocityPool table (mediaOf snap item) "d7") (m / (checkpointDays "d7" : ℚ)))))
       then "☘️" ++ velocityTag (percentileOf (velocityPool table (mediaOf snap item) "d7")
         (m / (checkpointDays "d7" : ℚ)))
       else velocityTag (percentileOf (velocityPool table (mediaOf snap item) "d7")
         (m / (checkpointDays "d7" : ℚ)))) := by
  rw [velocityFromSnapshots, if_neg (by decide : ¬ checkpointDays "d7" ≤ 0), hm]
  show (if velocityPool table (mediaOf snap item) "d7" = [] then ((none : Option String), "")
    else if (velocityPool table (mediaOf snap item) "d7").length < minCohortSize "d7" then
      (none, "insufficient_data")
    else
      (percentileOf (velocityPool table (mediaOf snap item) "d7") (m / (checkpointDays "d7" : ℚ)),
       if ("d7" : String) = "d7" then
         (if (!isHighTag (velocityTagForCheckpoint table (mediaOf snap item) snap item "d1"))
             && isHighTag (some (velocityTag (percentileOf
               (velocityPool table (mediaOf snap item) "d7") (m / (checkpointDays "d7" : ℚ)))))
          then "☘️" ++ velocityTag (percentileOf (velocityPool table (mediaOf snap item) "d7")
            (m / (checkpointDays "d7" : ℚ)))
          else velocityTag (percentileOf (velocityPool table (mediaOf snap item) "d7")
            (m / (checkpointDays "d7" : ℚ))))
       else velocityTag (percentileOf (velocityPool table (mediaOf snap item) "d7")
         (m / (checkpointDays "d7" : ℚ))))) = _
  rw [if_neg hpool, if_neg hbig, if_pos rfl]

/-- C4 (amended): for every post classified at `d7` through the
percentile path, the emitted tag is prefixed with ☘️ exactly when the
`d1` tag computed from the stored `d1` snapshot triple is not hot and the
current `d7` band tag is hot; when the post was never observed at `d1`
the baseline is absent (`None`), which counts as not hot, so the ☘️
prefix still applies whenever the `d7` tag is hot. -/
theorem late_bloomer_prefix_claim (table : List SnapRow) (snap : SnapRow) (item : Item)
    (m : ℚ) (hm : metricForCheckpoint snap item "d7" = some m)
    (hpool : velocityPool table (mediaOf snap item) "d7" ≠ [])
    (hbig : ¬ (velocityPool table (mediaOf snap item) "d7").length < minCohortSize "d7") :
    (strStartsWith (velocityFromSnapshots table snap item "d7").2 "☘️" = true
      ↔ (isHighTag (velocityTagForCheckpoint table (mediaOf snap item) snap item "d1") = false
          ∧ isHighTag (some (velocityTag (percentileOf
              (velocityPool table (mediaOf snap item) "d7")
              (m / (checkpointDays "d7" : ℚ))))) = true))
    ∧ (metricForCheckpoint snap item "d1" = none →
        velocityTagForCheckpoint table (mediaOf snap item) snap item "d1" = none) := by
  constructor
  · rw [velocityFromSnapshots_d7_eq table snap item m hm hpool hbig]
    by_cases hb : ((!isHighTag (velocityTagForCheckpoint table (mediaOf snap item) snap item "d1"))
        && isHighTag (some (velocityTag (percentileOf
          (velocityPool table (mediaOf snap item) "d7")
          (m / (checkpointDays "d7" : ℚ)))))) = true
    · rw [if_pos hb, strStartsWith_append_self]
      rw [Bool.and_eq_true] at hb
      obtain ⟨hb1, hb2⟩ := hb
      have hb1' : isHighTag (velocityTagForCheckpoint table (mediaOf snap item) snap item "d1")
          = false := by
        revert hb1
        cases isHighTag (velocityTagForCheckpoint table (mediaOf snap item) snap item "d1") <;>
          simp
      exact ⟨fun _ => ⟨hb1', hb2⟩, fun _ => rfl⟩
    · rw [if_neg hb, vocab_not_clover _ (velocityTag_mem_vocab _)]
      constructor
      · intro h
        exact absurd h (by simp)
      · rintro ⟨h1, h2⟩
        apply absurd _ hb
        rw [h1, h2]
        rfl
  · intro h1
    rw [velocityTagForCheckpoint, if_neg (by decide : ¬ checkpointDays "d1" ≤ 0), h1]

/-- Image-branch evaluation of `_metric_value`: when the media string
loosely matches none of video/reel/sidecar/carousel, the metric is the
likes count. -/
theorem metricValueM_image (media : String)
    (h1 : (strContains (pyLower media) "video" || strContains (pyLower media) "reel") = false)
    (h2 : (strContains (pyLower media) "sidecar" ||
      strContains (pyLower media) "carousel") = false)
    (v l c : Option ℤ) :
    metricValueM media v l c = ((l.getD 0 : ℤ) : ℚ) := by
  show (if strContains (pyLower media) "video" || strContains (pyLower media) "reel" then
      ((v.getD 0 : ℤ) : ℚ)
    else if strContains (pyLower media) "sidecar" || strContains (pyLower media) "carousel" then
      ((l.getD 0 : ℤ) : ℚ) + 2 * ((c.getD 0 : ℤ) : ℚ)
    else ((l.getD 0 : ℤ) : ℚ)) = ((l.getD 0 : ℤ) : ℚ)
  rw [h1, h2]
  rfl

/-- The late-bloomer scenario row: no `d1` observation, strong `d7`. -/
def cRow : SnapRow :=
  ⟨"c", none, none, .empty, .empty, ⟨none, some 140, none⟩, .empty, none, none, none, none⟩

/-- A weak-`d7` peer row for the late-bloomer scenario. -/
def cPeer : SnapRow :=
  ⟨"p", none, none, .empty, .empty, ⟨none, some 7, none⟩, .empty, none, none, none, none⟩

/-- A cohort of the scenario post plus 19 weak peers (minimum size 20). -/
def cTable : List SnapRow := cRow :: List.replicate 19 cPeer

theorem cTable_pool :
    velocityPool cTable (mediaOf cRow wItem) "d7"
      = metricValueM (pyLower "") none (some 140) none / (checkpointDays "d7" : ℚ) ::
        List.replicate 19
          (metricValueM (pyLower "") none (some 7) none / (checkpointDays "d7" : ℚ)) := rfl

theorem cTable_pool_val :
    velocityPool cTable (mediaOf cRow wItem) "d7" = (20 : ℚ) :: List.replicate 19 1 := by
  rw [cTable_pool, metricValueM_image (pyLower "") (by decide) (by decide),
    metricValueM_image (pyLower "") (by decide) (by decide)]
  norm_num [checkpointDays, show (("d7" : String) = "d1") ↔ False from iff_false_intro (by decide),
    show (("d7" : String) = "d3") ↔ False from iff_false_intro (by decide)]

theorem cTable_pct :
    percentileOf (velocityPool cTable (mediaOf cRow wItem) "d7")
      (metricValue wItem none (some 140) none / (checkpointDays "d7" : ℚ)) = some "1%" := by
  have hmpd : metricValue wItem none (some 140) none / (checkpointDays "d7" : ℚ) = 20 := by
    rw [show metricValue wItem none (some 140) none
        = metricValueM (pyLower "") none (some 140) none from rfl]
    rw [metricValueM_image (pyLower "") (by decide) (by decide)]
    norm_num [checkpointDays,
      show (("d7" : String) = "d1") ↔ False from iff_false_intro (by decide),
      show (("d7" : String) = "d3") ↔ False from iff_false_intro (by decide)]
  rw [cTable_pool_val, hmpd]
  norm_num [percentileOf, uniqDesc, pyRank, List.insertionSort, List.orderedInsert, List.dedup,
    List.pwFilter, List.findIdx?, pyRound, List.replicate]
  exact ⟨List.cons_ne_nil _ _, List.cons_ne_nil _ _, rfl⟩

theorem cTable_prev :
    velocityTagForCheckpoint cTable (mediaOf cRow wItem) cRow wItem "d1" = none := by
  rw [velocityTagForCheckpoint, if_neg (by decide : ¬ checkpointDays "d1" ≤ 0)]
  rfl

/-- C4 (counterexample): a post never observed at `d1` (absent baseline,
`d1` metric `None`) whose `d7` classification is hot still receives the
☘️ prefix — refuting the claim's "when the post was never observed at d1
… no late-bloomer prefix applies". -/
theorem late_bloomer_counterexample :
    velocityFromSnapshots cTable cRow wItem "d7" = (some "1%", "☘️🚀")
    ∧ metricForCheckpoint cRow wItem "d1" = none := by
  refine ⟨?_, rfl⟩
  rw [velocityFromSnapshots_d7_eq cTable cRow wItem (metricValue wItem none (some 140) none)
    rfl (by decide) (by decide)]
  rw [cTable_pct, cTable_prev]
  decide

/-- Witness for `late_bloomer_prefix_claim` at the concrete scenario. -/
theorem late_bloomer_prefix_claim_witness :
    strStartsWith (velocityFromSnapshots cTable cRow wItem "d7").2 "☘️" = true := by
  have h := (late_bloomer_prefix_claim cTable cRow wItem
    (metricValue wItem none (some 140) none) rfl (by decide) (by decide)).1
  refine h.mpr ⟨?_, ?_⟩
  · rw [cTable_prev]
    rfl
  · rw [cTable_pct]
    decide

/-- A blank `post_snapshots` row as created by the
`INSERT … ON CONFLICT (subscriber_id, handle, post_url) DO NOTHING` of
`upsert_snapshot` (db.py): provenance only, no checkpoint data. -/
def blankSnapRow (url : String) (mediaType : Option String) (postedAt : Option ℚ) : SnapRow :=
  ⟨url, mediaType, postedAt, .empty, .empty, .empty, .empty, none, none, none, none⟩

/-- The `UPDATE` of `upsert_snapshot` (db.py) on one row:
`media_type = COALESCE(media_type, new)`, `at = COALESCE(at, NOW())`,
checkpoint triple overwritten with the new values. -/
def updateSnapRow (r : SnapRow) (mediaType : Option String) (cp : String)
    (v l c : Option ℤ) (now : ℚ) : SnapRow :=
  if cp = "d1" then
    { r with mediaType := r.mediaType <|> mediaType, d1 := ⟨v, l, c⟩,
             d1At := r.d1At <|> some now }
  else if cp = "d3" then
    { r with mediaType := r.mediaType <|> mediaType, d3 := ⟨v, l, c⟩,
             d3At := r.d3At <|> some now }
  else if cp = "d7" then
    { r with mediaType := r.mediaType <|> mediaType, d7 := ⟨v, l, c⟩,
             d7At := r.d7At <|> some now }
  else if cp = "d21" then
    { r with mediaType := r.mediaType <|> mediaType, d21 := ⟨v, l, c⟩,
             d21At := r.d21At <|> some now }
  else r

/-- Embedding of `upsert_snapshot` (db.py): ensure the post's row exists
(insert a blank row when absent), then — for a known checkpoint — write
that checkpoint's triple (latest scrape wins), with first-write-wins
`media_type` and checkpoint timestamp.  An unknown checkpoint leaves the
ensured row untouched (the source commits and returns). -/
def upsertSnapshot (table : List SnapRow) (url : String) (mediaType : Option String)
    (postedAt : Option ℚ) (cp : String) (v l c : Option ℤ) (now : ℚ) : List SnapRow :=
  let table₁ :=
    if (table.find? (fun r => decide (r.postUrl = url))).isSome then table
    else table ++ [blankSnapRow url mediaType postedAt]
  if cp = "d1" ∨ cp = "d3" ∨ cp = "d7" ∨ cp = "d21" then
    table₁.map (fun r => if r.postUrl = url then updateSnapRow r mediaType cp v l c now else r)
  else table₁

theorem checkpointDays_pos_cases (cp : String) (h : 0 < checkpointDays cp) :
    cp = "d1" ∨ cp = "d3" ∨ cp = "d7" ∨ cp = "d21" := by
  by_cases h1 : cp = "d1"
  · exact Or.inl h1
  by_cases h3 : cp = "d3"
  · exact Or.inr (Or.inl h3)
  by_cases h7 : cp = "d7"
  · exact Or.inr (Or.inr (Or.inl h7))
  by_cases h21 : cp = "d21"
  · exact Or.inr (Or.inr (Or.inr h21))
  rw [checkpointDays, if_neg h1, if_neg h3, if_neg h7, if_neg h21] at h
  exact absurd h (by norm_num)

theorem snapTriple_updateSnapRow (r : SnapRow) (mediaType : Option String) (cp : String)
    (v l c : Option ℤ) (now : ℚ) (h : 0 < checkpointDays cp) :
    snapTriple (updateSnapRow r mediaType cp v l c now) cp = some ⟨v, l, c⟩
    ∧ (updateSnapRow r mediaType cp v l c now).mediaType = (r.mediaType <|> mediaType) := by
  rcases checkpointDays_pos_cases cp h with h1 | h1 | h1 | h1 <;> subst h1 <;>
    constructor <;> rfl

theorem minCohortSize_pos (cp : String) : 1 ≤ minCohortSize cp := by
  rw [minCohortSize]
  split <;> norm_num

/-- C10: when a post is classified at a checkpoint, its own just-upserted
snapshot row is part of the cohort pool it is ranked against: after
`upsert_snapshot` of a fresh post with any non-null value in the
checkpoint triple, the pool of `_velocity_pool` equals the previous pool
plus the post's own metric-per-day (computed from its stored media type),
so the minimum-cohort-size check counts the post itself, and a post with
exactly minimum-minus-one peers passes the threshold. -/
theorem pool_counts_self_claim (table : List SnapRow) (url : String)
    (mediaType : Option String) (postedAt : Option ℚ) (cp : String)
    (v l c : Option ℤ) (now : ℚ) (w : String)
    (hdays : 0 < checkpointDays cp)
    (hnn : ¬(v = none ∧ l = none ∧ c = none))
    (hfresh : table.find? (fun r => decide (r.postUrl = url)) = none) :
    velocityPool (upsertSnapshot table url mediaType postedAt cp v l c now)
        (pyLower (orElseStr mediaType w)) cp
      = velocityPool table (pyLower (orElseStr mediaType w)) cp ++
        [metricValueM (pyLower (mediaType.getD "")) v l c / (checkpointDays cp : ℚ)]
    ∧ metricValueM (pyLower (mediaType.getD "")) v l c / (checkpointDays cp : ℚ)
        ∈ velocityPool (upsertSnapshot table url mediaType postedAt cp v l c now)
          (pyLower (orElseStr mediaType w)) cp
    ∧ ((velocityPool table (pyLower (orElseStr mediaType w)) cp).length
          = minCohortSize cp - 1 →
        ¬ (velocityPool (upsertSnapshot table url mediaType postedAt cp v l c now)
            (pyLower (orElseStr mediaType w)) cp).length < minCohortSize cp) := by
  have hvalid := checkpointDays_pos_cases cp hdays
  have hupd : upsertSnapshot table url mediaType postedAt cp v l c now
      = table ++ [updateSnapRow (blankSnapRow url mediaType postedAt) mediaType cp v l c now] := by
    rw [upsertSnapshot]
    show (if cp = "d1" ∨ cp = "d3" ∨ cp = "d7" ∨ cp = "d21" then
        List.map (fun r => if r.postUrl = url then updateSnapRow r mediaType cp v l c now else r)
          (if (table.find? (fun r => decide (r.postUrl = url))).isSome = true then table
           else table ++ [blankSnapRow url mediaType postedAt])
      else
        (if (table.find? (fun r => decide (r.postUrl = url))).isSome = true then table
         else table ++ [blankSnapRow url mediaType postedAt])) = _
    rw [if_pos hvalid, hfresh]
    simp only [Option.isSome_none, Bool.false_eq_true, if_false]
    rw [List.map_append]
    have hid : ∀ r ∈ table,
        (if r.postUrl = url then updateSnapRow r mediaType cp v l c now else r) = id r := by
      intro r hr
      have hne := List.find?_eq_none.mp hfresh r hr
      simp only [decide_eq_true_eq] at hne
      rw [if_neg hne]
      rfl
    rw [List.map_congr_left hid, List.map_id]
    congr 1
    show [if (blankSnapRow url mediaType postedAt).postUrl = url then
      updateSnapRow (blankSnapRow url mediaType postedAt) mediaType cp v l c now
      else blankSnapRow url mediaType postedAt] = _
    rw [if_pos (show (blankSnapRow url mediaType postedAt).postUrl = url from rfl)]
  have hrowdata := snapTriple_updateSnapRow (blankSnapRow url mediaType postedAt)
    mediaType cp v l c now hdays
  have hmedia : (updateSnapRow (blankSnapRow url mediaType postedAt)
      mediaType cp v l c now).mediaType = mediaType := by
    rw [hrowdata.2]
    show (mediaType <|> mediaType) = mediaType
    cases mediaType <;> rfl
  have hrow : velocityPoolRow (pyLower (orElseStr mediaType w)) cp
      (updateSnapRow (blankSnapRow url mediaType postedAt) mediaType cp v l c now)
      = some (metricValueM (pyLower (mediaType.getD "")) v l c / (checkpointDays cp : ℚ)) := by
    have h2 := velocityPoolRow_self
      (updateSnapRow (blankSnapRow url mediaType postedAt) mediaType cp v l c now)
      ⟨v, l, c⟩ w cp hrowdata.1 hnn
    rw [hmedia] at h2
    exact h2
  have hmain : velocityPool (upsertSnapshot table url mediaType postedAt cp v l c now)
      (pyLower (orElseStr mediaType w)) cp
      = velocityPool table (pyLower (orElseStr mediaType w)) cp ++
        [metricValueM (pyLower (mediaType.getD "")) v l c / (checkpointDays cp : ℚ)] := by
    rw [hupd, velocityPool, if_neg (not_le.mpr hdays), List.filterMap_append,
      velocityPool, if_neg (not_le.mpr hdays)]
    congr 1
    rw [List.filterMap_cons, hrow]
    rfl
  refine ⟨hmain, ?_, ?_⟩
  · rw [hmain]
    exact List.mem_append_right _ (List.mem_singleton.mpr rfl)
  · intro hlen
    rw [hmain, List.length_append, hlen, List.length_singleton]
    have := minCohortSize_pos cp
    omega

/-- Eleven weak peers for the `d1` threshold witness (minimum 12). -/
def wPeers : List SnapRow :=
  List.replicate 11
    ⟨"p", none, none, ⟨none, some 7, none⟩, .empty, .empty, .empty, none, none, none, none⟩

/-- Witness for `pool_counts_self_claim`: upserting a fresh post into a
cohort of exactly 11 peers at `d1` reaches the minimum size 12 because
the pool counts the post itself. -/
theorem pool_counts_self_claim_witness :
    ¬ (velocityPool (upsertSnapshot wPeers "u" none none "d1" none (some 140) none 0)
        (pyLower (orElseStr none "")) "d1").length < minCohortSize "d1" :=
  (pool_counts_self_claim wPeers "u" none none "d1" none (some 140) none 0 ""
    (by decide) (by decide) (by decide)).2.2 (by decide)

/-- A `post_signals` row (db.py): the user-visible classification,
last-write-wins keyed by the post URL within one `(subscriber, handle)`
scope. -/
structure Signal where
  mediaType : Option String
  postedAt : Option ℚ
  caption : Option String
  velocityTag : String
  velocityStage : String
  velocityPercentile : String
deriving DecidableEq

/-- A `post_checkpoint_metrics` row (db.py; claim-relevant fields),
idempotently upserted on `(post_url, checkpoint)`. -/
structure MetricRow where
  postUrl : String
  checkpoint : String
  stageLabel : String
  views : Option ℤ
  likes : Option ℤ
  comments : Option ℤ
  metricValue : Option ℚ
  velocityValue : Option ℚ
  velocityTag : String
  velocityPercentile : String
deriving DecidableEq

/-- The store visible to `_apply_velocity` for one `(subscriber, handle)`
scope: snapshot rows, post signals and checkpoint metrics.  (Sheet writes,
`posts_core` and feed/feeder id resolution carry no classification state
and are not modelled.) -/
structure DbState where
  snapshots : List SnapRow
  signals : List (String × Signal)
  metrics : List MetricRow
deriving DecidableEq

/-- `get_snapshots` (db.py) within the scope. -/
def findSnap (table : List SnapRow) (url : String) : Option SnapRow :=
  table.find? (fun r => decide (r.postUrl = url))

/-- `upsert_post_signal` (db.py): keyed last-write-wins upsert.  The
signals list is a keyed map; the new binding shadows any previous one. -/
def upsertPostSignal (st : DbState) (url : String) (sig : Signal) : DbState :=
  { st with signals := (url, sig) :: st.signals.filter (fun p => !(decide (p.1 = url))) }

/-- The stored signal of a post. -/
def getSignal (st : DbState) (url : String) : Option Signal :=
  (st.signals.find? (fun p => decide (p.1 = url))).map Prod.snd

/-- `upsert_checkpoint_metric` (db.py): keyed last-write-wins upsert on
`(post_url, checkpoint)`. -/
def upsertMetricRow (st : DbState) (row : MetricRow) : DbState :=
  { st with metrics :=
      row :: st.metrics.filter (fun r =>
        !(decide (r.postUrl = row.postUrl) && decide (r.checkpoint = row.checkpoint))) }

/-- `is_d7_hot` (db.py): the stored post-signal tag contains 🔥 or 🚀
(`row.get("velocity_tag") or ""` on a missing row is not hot). -/
def isD7Hot (st : DbState) (url : String) : Bool :=
  match getSignal st url with
  | none => false
  | some sig => strContains sig.velocityTag "🔥" || strContains sig.velocityTag "🚀"

/-- Python `a or b or dflt` for a string `a` and optional string `b`
(`signal_tag = d7_tag_full or d7_tag or "✅"` in `_apply_velocity`). -/
def pyOrStr2 (a : String) (b : Option String) (dflt : String) : String :=
  if a ≠ "" then a
  else match b with
    | some s => if s ≠ "" then s else dflt
    | none => dflt

/-- The normalized per-item inputs `_apply_velocity` reads from `norm`:
`_safe_int` of views/likes/comments, `norm.get("media_type")` and
`norm.get("caption")`. -/
structure NormData where
  views : Option ℤ
  likes : Option ℤ
  comments : Option ℤ
  mediaType : Option String
  caption : Option String
deriving DecidableEq

/-- Embedding of `_apply_velocity(subscriber_id, handle, item, norm,
forced_checkpoint)` (sync.py) as a transition on the scope's store.
Sheet-only mutations of `norm` are not modelled; everything written to
the store (snapshot upsert, post signal, checkpoint metric) is.  Returns
the unchanged state when the item has no parseable `posted_at`. -/
def applyVelocity (st : DbState) (item : Item) (norm : NormData) (url : String)
    (forced : Option String) (now : ℚ) : DbState :=
  match item.postedAt with
  | none => st
  | some postedAt =>
    let ageHours := (now - postedAt) / 3600
    let checkpoint := match forced with
      | some f => f
      | none => checkpointFromAge ageHours
    let metricNow := metricValue item norm.views norm.likes norm.comments
    let daysNow := checkpointDays checkpoint
    let velocityNow : Option ℚ := if 0 < daysNow then some (metricNow / (daysNow : ℚ)) else none
    -- Day-21 only if Day-7 passed (🔥 or 🚀).  If not, keep D7 signal.
    match (if checkpoint = "d21" then findSnap st.snapshots url else none) with
    | some snap =>
      if isHighTag (velocityTagForCheckpoint st.snapshots (mediaOf snap item) snap item "d7")
      then
        applyVelocityMain st item norm url checkpoint ageHours metricNow velocityNow postedAt now
      else
        let d7res := velocityFromSnapshots st.snapshots snap item "d7"
        let signalTag := pyOrStr2 d7res.2
          (velocityTagForCheckpoint st.snapshots (mediaOf snap item) snap item "d7") "✅"
        let signalPercentile := orElseStr d7res.1 ""
        let st := upsertPostSignal st url
          ⟨norm.mediaType, some postedAt, norm.caption, signalTag,
           stageLabel "d7" ageHours, signalPercentile⟩
        upsertMetricRow st
          ⟨url, "d7", stageLabel "d7" ageHours, snap.d7.views, snap.d7.likes, snap.d7.comments,
           metricForCheckpoint snap item "d7",
           (metricForCheckpoint snap item "d7").map (fun m => m / 7),
           signalTag, signalPercentile⟩
    | none =>
      applyVelocityMain st item norm url checkpoint ageHours metricNow velocityNow postedAt now
where
  /-- The non-gated tail of `_apply_velocity`: always-overwrite snapshot
  upsert, reclassification from the fresh snapshot, signal and metric
  writes (`return` when the refetched snapshot is missing). -/
  applyVelocityMain (st : DbState) (item : Item) (norm : NormData) (url : String)
      (checkpoint : String) (ageHours metricNow : ℚ) (velocityNow : Option ℚ)
      (postedAt now : ℚ) : DbState :=
    let snapshots := upsertSnapshot st.snapshots url (some (orElseStr norm.mediaType ""))
      (some postedAt) checkpoint norm.views norm.likes norm.comments now
    let st := { st with snapshots := snapshots }
    match findSnap snapshots url with
    | none => st
    | some snap =>
      let res := velocityFromSnapshots snapshots snap item checkpoint
      let signalTag := if res.2 ≠ "" then res.2 else "✅"
      let signalPercentile := orElseStr res.1 ""
      let st := upsertPostSignal st url
        ⟨norm.mediaType, some postedAt, norm.caption, signalTag,
         stageLabel checkpoint ageHours, signalPercentile⟩
      upsertMetricRow st
        ⟨url, checkpoint, stageLabel checkpoint ageHours, norm.views, norm.likes, norm.comments,
         some metricNow, velocityNow, signalTag, signalPercentile⟩

/-- A `post_queue` job row (db.py). -/
structure PostJob where
  id : ℕ
  subscriberId : ℤ
  handle : String
  postUrl : String
  checkpoint : String
  requiresD7Hot : Bool
  status : String
  attempt : ℕ
  nextRunAt : ℚ
deriving DecidableEq

/-- The worker's per-job resolution for a post-queue job whose batch
scrape succeeded and returned its URL (cli.py): the batch sync
(`sync_post_checkpoint_batch` → `_apply_velocity` with the forced
checkpoint) runs first, then the D21 gate consults `is_d7_hot` on the
rewritten signal and marks the job `skipped` or `done`. -/
def runPostJobStep (st : DbState) (pj : PostJob) (item : Item) (norm : NormData)
    (now : ℚ) : DbState × String :=
  let st' := applyVelocity st item norm pj.postUrl (some pj.checkpoint) now
  if pj.checkpoint = "d21" && pj.requiresD7Hot && !(isD7Hot st' pj.postUrl) then
    (st', "skipped")
  else (st', "done")

theorem velocityTagForCheckpoint_eq (table : List SnapRow) (media : String)
    (snap : SnapRow) (item : Item) (cp : String) (m : ℚ) (hdays : 0 < checkpointDays cp)
    (hm : metricForCheckpoint snap item cp = some m) :
    velocityTagForCheckpoint table media snap item cp =
      (if velocityPool table media cp = [] then none
       else if (velocityPool table media cp).length < minCohortSize cp then
         some "insufficient_data"
       else some (velocityTag (percentileOf (velocityPool table media cp)
         (m / (checkpointDays cp : ℚ))))) := by
  rw [velocityTagForCheckpoint, if_neg (not_le.mpr hdays), hm]

theorem velocityTagForCheckpoint_metric_none (table : List SnapRow) (media : String)
    (snap : SnapRow) (item : Item) (cp : String) (hdays : 0 < checkpointDays cp)
    (hm : metricForCheckpoint snap item cp = none) :
    velocityTagForCheckpoint table media snap item cp = none := by
  rw [velocityTagForCheckpoint, if_neg (not_le.mpr hdays), hm]

/-- `_velocity_from_snapshots` at `d7` and `_velocity_tag_for_checkpoint`
at `d7` (as called by the D21 gate) see the same metric and pool, so
their outcomes move in lockstep: both empty, both the sentinel, or the
same band tag — with the ☘️ prefix possible only on a hot band tag. -/
theorem d7_parallel (table : List SnapRow) (snap : SnapRow) (item : Item) :
    ((velocityFromSnapshots table snap item "d7").2 = ""
      ∧ velocityTagForCheckpoint table (mediaOf snap item) snap item "d7" = none)
    ∨ ((velocityFromSnapshots table snap item "d7").2 = "insufficient_data"
      ∧ velocityTagForCheckpoint table (mediaOf snap item) snap item "d7"
          = some "insufficient_data")
    ∨ (∃ tag0, tag0 ∈ tagVocab
        ∧ velocityTagForCheckpoint table (mediaOf snap item) snap item "d7" = some tag0
        ∧ ((velocityFromSnapshots table snap item "d7").2 = tag0
           ∨ ((velocityFromSnapshots table snap item "d7").2 = "☘️" ++ tag0
              ∧ isHighTag (some tag0) = true))) := by
  have hdays : 0 < checkpointDays "d7" := by decide
  rcases hm : metricForCheckpoint snap item "d7" with _ | m
  · exact Or.inl ⟨by rw [velocityFromSnapshots_metric_none table snap item "d7" hdays hm],
      velocityTagForCheckpoint_metric_none table _ snap item "d7" hdays hm⟩
  · by_cases hnil : velocityPool table (mediaOf snap item) "d7" = []
    · refine Or.inl ⟨?_, ?_⟩
      · rw [velocityFromSnapshots_pool_nil table snap item "d7" m hdays hm hnil]
      · rw [velocityTagForCheckpoint_eq table _ snap item "d7" m hdays hm, if_pos hnil]
    · by_cases hsmall : (velocityPool table (mediaOf snap item) "d7").length
          < minCohortSize "d7"
      · refine Or.inr (Or.inl ⟨?_, ?_⟩)
        · rw [velocityFromSnapshots_insufficient table snap item "d7" m hdays hm hnil hsmall]
        · rw [velocityTagForCheckpoint_eq table _ snap item "d7" m hdays hm, if_neg hnil,
            if_pos hsmall]
      · refine Or.inr (Or.inr ⟨velocityTag (percentileOf
          (velocityPool table (mediaOf snap item) "d7") (m / (checkpointDays "d7" : ℚ))),
          velocityTag_mem_vocab _, ?_, ?_⟩)
        · rw [velocityTagForCheckpoint_eq table _ snap item "d7" m hdays hm, if_neg hnil,
            if_neg hsmall]
        · rw [velocityFromSnapshots_d7_eq table snap item m hm hnil hsmall]
          by_cases hb : ((!isHighTag (velocityTagForCheckpoint table (mediaOf snap item)
              snap item "d1")) && isHighTag (some (velocityTag (percentileOf
              (velocityPool table (mediaOf snap item) "d7")
              (m / (checkpointDays "d7" : ℚ)))))) = true
          · rw [if_pos hb]
            exact Or.inr ⟨rfl, (Bool.and_eq_true _ _ |>.mp hb).2⟩
          · rw [if_neg hb]
            exact Or.inl rfl

theorem vocab_facts (t : String) (h : t ∈ tagVocab) :
    t ≠ "" ∧ isHighTag (some t) = (strContains t "🔥" || strContains t "🚀") := by
  simp only [tagVocab, List.mem_cons, List.not_mem_nil, or_false] at h
  rcases h with h | h | h | h <;> subst h <;> exact ⟨by decide, rfl⟩

/-- The signal tag the D21 gate writes (`d7_tag_full or d7_tag or "✅"`)
is never hot when the recomputed D7 tag is not hot. -/
theorem d21_signal_not_hot (table : List SnapRow) (snap : SnapRow) (item : Item)
    (hnothot : isHighTag (velocityTagForCheckpoint table (mediaOf snap item)
      snap item "d7") = false) :
    (strContains (pyOrStr2 (velocityFromSnapshots table snap item "d7").2
        (velocityTagForCheckpoint table (mediaOf snap item) snap item "d7") "✅") "🔥"
      || strContains (pyOrStr2 (velocityFromSnapshots table snap item "d7").2
        (velocityTagForCheckpoint table (mediaOf snap item) snap item "d7") "✅") "🚀")
      = false := by
  rcases d7_parallel table snap item with ⟨h1, h2⟩ | ⟨h1, h2⟩ | ⟨tag0, hv, h2, h1⟩
  · rw [h1, h2]
    decide
  · rw [h1, h2]
    decide
  · obtain ⟨hne, hhigh⟩ := vocab_facts tag0 hv
    rcases h1 with h1 | ⟨h1, h1h⟩
    · rw [h1, h2]
      rw [h2] at hnothot
      rw [pyOrStr2, if_pos hne]
      rw [isHighTag] at hnothot
      rw [if_neg hne] at hnothot
      exact hnothot
    · rw [h2] at hnothot
      rw [isHighTag, if_neg hne] at hnothot
      rw [hhigh] at h1h
      rw [h1h] at hnothot
      exact absurd hnothot (by simp)

theorem getSignal_upsertPostSignal (st : DbState) (url : String) (sig : Signal) :
    getSignal (upsertPostSignal st url sig) url = some sig := by
  rw [getSignal, upsertPostSignal]
  rw [List.find?_cons_of_pos _ (by simp)]
  rfl

/-- The D21 gate branch of `_apply_velocity` in closed form: when the
post's snapshot row exists, `posted_at` parses, and the re-evaluated D7
tag is not hot, the snapshot store is untouched and the post signal and
the `d7` checkpoint metric are rewritten from the D7 classification. -/
theorem applyVelocity_d21_gate (st : DbState) (item : Item) (norm : NormData)
    (url : String) (now t : ℚ) (snap : SnapRow)
    (hts : item.postedAt = some t)
    (hsnap : findSnap st.snapshots url = some snap)
    (hnothot : isHighTag (velocityTagForCheckpoint st.snapshots (mediaOf snap item)
      snap item "d7") = false) :
    applyVelocity st item norm url (some "d21") now =
      upsertMetricRow (upsertPostSignal st url
        ⟨norm.mediaType, some t, norm.caption,
         pyOrStr2 (velocityFromSnapshots st.snapshots snap item "d7").2
           (velocityTagForCheckpoint st.snapshots (mediaOf snap item) snap item "d7") "✅",
         stageLabel "d7" ((now - t) / 3600),
         orElseStr (velocityFromSnapshots st.snapshots snap item "d7").1 ""⟩)
        ⟨url, "d7", stageLabel "d7" ((now - t) / 3600),
         snap.d7.views, snap.d7.likes, snap.d7.comments,
         metricForCheckpoint snap item "d7",
         (metricForCheckpoint snap item "d7").map (fun m => m / 7),
         pyOrStr2 (velocityFromSnapshots st.snapshots snap item "d7").2
           (velocityTagForCheckpoint st.snapshots (mediaOf snap item) snap item "d7") "✅",
         orElseStr (velocityFromSnapshots st.snapshots snap item "d7").1 ""⟩ := by
  simp only [applyVelocity, hts]
  simp only [show (("d21" : String) = "d21") = True from by simp, if_true, hsnap]
  simp only [hnothot, Bool.false_eq_true, if_false]

/-- C1 (amended): for every d21 post-queue job executed on a post whose
snapshot row exists and whose item has a parseable `posted_at`, when the
re-evaluated D7 classification (from the snapshot data) is not hot — a
tag containing 🔥 or 🚀 — the job terminates with status `skipped`
rather than `failed`, no d21 snapshot column is written (the snapshot
store is untouched), and the post signal is rewritten with the D7 tag,
stage `D7` and D7 percentile. -/
theorem d21_gate_claim (st : DbState) (pj : PostJob) (item : Item) (norm : NormData)
    (now t : ℚ) (snap : SnapRow)
    (hcp : pj.checkpoint = "d21") (hreq : pj.requiresD7Hot = true)
    (hts : item.postedAt = some t)
    (hsnap : findSnap st.snapshots pj.postUrl = some snap)
    (hnothot : isHighTag (velocityTagForCheckpoint st.snapshots (mediaOf snap item)
      snap item "d7") = false) :
    (runPostJobStep st pj item norm now).2 = "skipped"
    ∧ (runPostJobStep st pj item norm now).1.snapshots = st.snapshots
    ∧ getSignal (runPostJobStep st pj item norm now).1 pj.postUrl
        = some ⟨norm.mediaType, some t, norm.caption,
            pyOrStr2 (velocityFromSnapshots st.snapshots snap item "d7").2
              (velocityTagForCheckpoint st.snapshots (mediaOf snap item) snap item "d7") "✅",
            "D7",
            orElseStr (velocityFromSnapshots st.snapshots snap item "d7").1 ""⟩ := by
  have hstage : stageLabel "d7" ((now - t) / 3600) = "D7" := rfl
  have hst' : (runPostJobStep st pj item norm now).1
      = applyVelocity st item norm pj.postUrl (some pj.checkpoint) now := by
    rw [runPostJobStep]
    split <;> rfl
  have hgate := applyVelocity_d21_gate st item norm pj.postUrl now t snap hts hsnap hnothot
  have hsig : getSignal (applyVelocity st item norm pj.postUrl (some pj.checkpoint) now)
      pj.postUrl = some ⟨norm.mediaType, some t, norm.caption,
        pyOrStr2 (velocityFromSnapshots st.snapshots snap item "d7").2
          (velocityTagForCheckpoint st.snapshots (mediaOf snap item) snap item "d7") "✅",
        "D7",
        orElseStr (velocityFromSnapshots st.snapshots snap item "d7").1 ""⟩ := by
    rw [hcp, hgate, hstage]
    rw [show ∀ (st : DbState) (r : MetricRow), getSignal (upsertMetricRow st r) pj.postUrl
        = getSignal st pj.postUrl from fun _ _ => rfl]
    exact getSignal_upsertPostSignal _ _ _
  have hhot : isD7Hot (applyVelocity st item norm pj.postUrl (some pj.checkpoint) now)
      pj.postUrl = false := by
    rw [isD7Hot, hsig]
    exact d21_signal_not_hot st.snapshots snap item hnothot
  refine ⟨?_, ?_, ?_⟩
  · rw [runPostJobStep]
    rw [if_pos]
    rw [hhot, hcp, hreq]
    rfl
  · rw [hst', hcp, hgate]
    rfl
  · rw [hst']
    exact hsig

/-- A d21 post-queue job as `ensure_post_checkpoint_jobs` creates it
(`requires_d7_hot = true`). -/
def gPj : PostJob := ⟨1, 0, "h", "u", "d21", true, "running", 0, 0⟩

/-- A scraper item with a parseable `posted_at`. -/
def gItem : Item := ⟨none, none, some 0⟩

/-- Normalized counts of the d21 scrape (9 likes). -/
def gNorm : NormData := ⟨none, some 9, none, none, none⟩

/-- A store with no snapshot row for the post and a non-hot (😴) stored
post signal. -/
def gSt : DbState := ⟨[], [("u", ⟨none, none, none, "😴", "D7", "60%"⟩)], []⟩

/-- C1 (counterexample): a d21 job for a post with a non-hot stored D7
signal but no snapshot row still writes a d21 snapshot column (the gate
in `_apply_velocity` only fires when a snapshot row exists), even though
the job is marked `skipped` — refuting "no d21 snapshot column is
written". -/
theorem d21_gate_counterexample :
    isD7Hot gSt "u" = false
    ∧ (runPostJobStep gSt gPj gItem gNorm 0).2 = "skipped"
    ∧ (findSnap (runPostJobStep gSt gPj gItem gNorm 0).1.snapshots "u").map SnapRow.d21
        = some ⟨none, some 9, none⟩ := by
  decide

/-- Witness for `d21_gate_claim`:  a post with a snapshot row but no d7
data (not hot) has its d21 job skipped. -/
theorem d21_gate_claim_witness :
    (runPostJobStep ⟨[wRow], [], []⟩ gPj gItem gNorm 0).2 = "skipped" :=
  (d21_gate_claim ⟨[wRow], [], []⟩ gPj gItem gNorm 0 0 wRow rfl rfl rfl
    (by decide) (by decide)).1

/-- A `run_queue` (handle-queue) job row, as far as the worker loop
consults it. -/
structure HandleJob where
  id : ℕ
  attempt : ℕ
deriving DecidableEq

/-- The terminal disposition the worker gives a claimed job in one loop
iteration.  `cooldownRetry` is `mark_*_retry(id, job["attempt"],
pause_until, "Apify cooldown active")`; `retry` is the backoff retry with
an incremented attempt. -/
inductive JobOutcome where
  | cooldownRetry (attempt : ℕ) (nextRunAt : ℚ)
  | done
  | retry (attempt : ℕ) (nextRunAt : ℚ)
  | failed
  | skipped
deriving DecidableEq

/-- `_next_retry_time(attempt)` (cli.py): backoff minutes indexed by
`min(attempt - 1, len(RETRY_BACKOFF_MINUTES) - 1)`. -/
def nextRetryTime (backoff : List ℚ) (attempt : ℕ) (now : ℚ) : ℚ :=
  now + 60 * backoff.getD (min (attempt - 1) (backoff.length - 1)) 0

/-- The failure path shared by both queues (cli.py): increment the
attempt; within the backoff schedule retry at the computed time, pushed
out to the circuit-breaker pause when that is later; beyond the schedule,
terminal failure. -/
def failureOutcome (attempt0 : ℕ) (newPause : Option ℚ) (backoff : List ℚ)
    (now : ℚ) : JobOutcome :=
  let attempt := attempt0 + 1
  if attempt ≤ backoff.length then
    let nextTime := nextRetryTime backoff attempt now
    let nextTime := match newPause with
      | some np => if nextTime < np then np else nextTime
      | none => nextTime
    .retry attempt nextTime
  else .failed

/-- The worker's handle-queue iteration (cli.py `worker()`): the
pause-check before consuming the job (returning it with an unchanged
attempt), then the sync outcome (`syncOk`, with `newPause` the pause
returned by `record_apify_failure` on failure). -/
def handleJobStep (pauseUntil : Option ℚ) (now : ℚ) (job : HandleJob)
    (syncOk : Bool) (newPause : Option ℚ) (backoff : List ℚ) : JobOutcome :=
  match pauseUntil with
  | some p =>
    if p > now then .cooldownRetry job.attempt p
    else handleDispatch job syncOk newPause backoff now
  | none => handleDispatch job syncOk newPause backoff now
where
  handleDispatch (job : HandleJob) (syncOk : Bool) (newPause : Option ℚ)
      (backoff : List ℚ) (now : ℚ) : JobOutcome :=
    if syncOk then .done
    else failureOutcome job.attempt newPause backoff now

/-- The worker's per-job resolution of a post-queue batch after a
successful or failed batch scrape (cli.py): D21 gate first (`gateSkip pj`
stands for `not is_d7_hot(...)` on the post-sync store), then
presence of the post in the batch result, then the failure path. -/
def resolvePostJob (pj : PostJob) (syncOk : Bool) (gateSkip gotResult : PostJob → Bool)
    (newPause : Option ℚ) (backoff : List ℚ) (now : ℚ) : JobOutcome :=
  if syncOk then
    if pj.checkpoint = "d21" && pj.requiresD7Hot && gateSkip pj then .skipped
    else if gotResult pj then .done
    else failureOutcome pj.attempt none backoff now
  else failureOutcome pj.attempt newPause backoff now

/-- The worker's post-queue iteration over a claimed batch (cli.py): the
pause-check returns every job of the batch to retry at `pause_until` with
an unchanged attempt; otherwise each job is resolved individually. -/
def postJobsStep (pauseUntil : Option ℚ) (now : ℚ) (jobs : List PostJob)
    (syncOk : Bool) (gateSkip gotResult : PostJob → Bool) (newPause : Option ℚ)
    (backoff : List ℚ) : List (ℕ × JobOutcome) :=
  match pauseUntil with
  | some p =>
    if p > now then jobs.map (fun pj => (pj.id, JobOutcome.cooldownRetry pj.attempt p))
    else jobs.map (fun pj =>
      (pj.id, resolvePostJob pj syncOk gateSkip gotResult newPause backoff now))
  | none => jobs.map (fun pj =>
      (pj.id, resolvePostJob pj syncOk gateSkip gotResult newPause backoff now))

theorem failureOutcome_retry_increments (attempt0 : ℕ) (newPause : Option ℚ)
    (backoff : List ℚ) (now : ℚ) (a : ℕ) (n : ℚ)
    (h : failureOutcome attempt0 newPause backoff now = .retry a n) :
    a = attempt0 + 1 := by
  rw [failureOutcome] at h
  by_cases hle : attempt0 + 1 ≤ backoff.length
  · rw [if_pos hle] at h
    injection h with h1 h2
    exact h1.symm
  · rw [if_neg hle] at h
    exact absurd h (by simp)

/-- C7: whenever the circuit breaker's `pause_until` lies in the future,
no claimed queue job is processed: the handle job and every job of a
claimed post batch are returned to retry with `next_run_at = pause_until`
and an unchanged attempt counter; and this cooldown return is the only
kind of retry that does not consume the attempt budget — every other
retry carries attempt + 1, and a cooldown return only arises from a
future `pause_until`. -/
theorem circuit_pause_claim :
    (∀ (p now : ℚ) (job : HandleJob) (syncOk : Bool) (newPause : Option ℚ)
        (backoff : List ℚ), now < p →
      handleJobStep (some p) now job syncOk newPause backoff
        = .cooldownRetry job.attempt p)
    ∧ (∀ (p now : ℚ) (jobs : List PostJob) (syncOk : Bool)
        (gateSkip gotResult : PostJob → Bool) (newPause : Option ℚ)
        (backoff : List ℚ), now < p →
      postJobsStep (some p) now jobs syncOk gateSkip gotResult newPause backoff
        = jobs.map (fun pj => (pj.id, JobOutcome.cooldownRetry pj.attempt p)))
    ∧ (∀ (pauseUntil : Option ℚ) (now : ℚ) (job : HandleJob) (syncOk : Bool)
        (newPause : Option ℚ) (backoff : List ℚ) (a : ℕ) (n : ℚ),
      handleJobStep pauseUntil now job syncOk newPause backoff = .retry a n →
      a = job.attempt + 1)
    ∧ (∀ (pauseUntil : Option ℚ) (now : ℚ) (job : HandleJob) (syncOk : Bool)
        (newPause : Option ℚ) (backoff : List ℚ) (a : ℕ) (n : ℚ),
      handleJobStep pauseUntil now job syncOk newPause backoff = .cooldownRetry a n →
      a = job.attempt ∧ pauseUntil = some n ∧ now < n)
    ∧ (∀ (pj : PostJob) (syncOk : Bool) (gateSkip gotResult : PostJob → Bool)
        (newPause : Option ℚ) (backoff : List ℚ) (now : ℚ) (a : ℕ) (n : ℚ),
      resolvePostJob pj syncOk gateSkip gotResult newPause backoff now = .retry a n →
      a = pj.attempt + 1)
    ∧ (∀ (pj : PostJob) (syncOk : Bool) (gateSkip gotResult : PostJob → Bool)
        (newPause : Option ℚ) (backoff : List ℚ) (now : ℚ) (a : ℕ) (n : ℚ),
      resolvePostJob pj syncOk gateSkip gotResult newPause backoff now
        ≠ .cooldownRetry a n) := by
  refine ⟨?_, ?_, ?_, ?_, ?_, ?_⟩
  · intro p now job syncOk newPause backoff hlt
    rw [handleJobStep, if_pos hlt]
  · intro p now jobs syncOk gateSkip gotResult newPause backoff hlt
    rw [postJobsStep]
    show (if p > now then _ else _) = _
    rw [if_pos hlt]
  · intro pauseUntil now job syncOk newPause backoff a n h
    rcases pauseUntil with _ | p
    · rw [handleJobStep] at h
      rw [handleJobStep.handleDispatch] at h
      rcases syncOk with _ | _
      · rw [if_neg (by simp)] at h
        exact failureOutcome_retry_increments _ _ _ _ _ _ h
      · rw [if_pos rfl] at h
        exact absurd h (by simp)
    · rw [handleJobStep] at h
      by_cases hlt : p > now
      · rw [if_pos hlt] at h
        exact absurd h (by simp)
      · rw [if_neg hlt, handleJobStep.handleDispatch] at h
        rcases syncOk with _ | _
        · rw [if_neg (by simp)] at h
          exact failureOutcome_retry_increments _ _ _ _ _ _ h
        · rw [if_pos rfl] at h
          exact absurd h (by simp)
  · intro pauseUntil now job syncOk newPause backoff a n h
    rcases pauseUntil with _ | p
    · rw [handleJobStep, handleJobStep.handleDispatch] at h
      rcases syncOk with _ | _
      · rw [if_neg (by simp)] at h
        rw [failureOutcome] at h
        split at h
        · exact absurd h (by simp)
        · exact absurd h (by simp)
      · rw [if_pos rfl] at h
        exact absurd h (by simp)
    · rw [handleJobStep] at h
      by_cases hlt : p > now
      · rw [if_pos hlt] at h
        injection h with h1 h2
        exact ⟨h1.symm, by rw [h2], h2 ▸ hlt⟩
      · rw [if_neg hlt, handleJobStep.handleDispatch] at h
        rcases syncOk with _ | _
        · rw [if_neg (by simp)] at h
          rw [failureOutcome] at h
          split at h
          · exact absurd h (by simp)
          · exact absurd h (by simp)
        · rw [if_pos rfl] at h
          exact absurd h (by simp)
  · intro pj syncOk gateSkip gotResult newPause backoff now a n h
    rw [resolvePostJob] at h
    rcases syncOk with _ | _
    · rw [if_neg (by simp)] at h
      exact failureOutcome_retry_increments _ _ _ _ _ _ h
    · rw [if_pos rfl] at h
      split at h
      · exact absurd h (by simp)
      · split at h
        · exact absurd h (by simp)
        · exact failureOutcome_retry_increments _ _ _ _ _ _ h
  · intro pj syncOk gateSkip gotResult newPause backoff now a n
    intro h
    rw [resolvePostJob] at h
    have hfail : ∀ (a0 : ℕ) (np : Option ℚ),
        failureOutcome a0 np backoff now ≠ .cooldownRetry a n := by
      intro a0 np hh
      rw [failureOutcome] at hh
      split at hh
      · exact absurd hh (by simp)
      · exact absurd hh (by simp)
    rcases syncOk with _ | _
    · rw [if_neg (by simp)] at h
      exact hfail _ _ h
    · rw [if_pos rfl] at h
      split at h
      · exact absurd h (by simp)
      · split at h
        · exact absurd h (by simp)
        · exact hfail _ _ h

/-- Witness for `circuit_pause_claim`: a pause one hour in the future
returns the claimed job with its attempt untouched. -/
theorem circuit_pause_claim_witness :
    handleJobStep (some 3600) 0 ⟨1, 2⟩ true none [] = .cooldownRetry 2 3600 :=
  circuit_pause_claim.1 3600 0 ⟨1, 2⟩ true none [] (by norm_num)

/-- Python `s[:n]` (truncation of persisted error messages). -/
def strTake (s : String) (n : ℕ) : String := String.mk (s.data.take n)

/-- The `apify_health` singleton row (db.py). -/
structure ApifyHealth where
  consecutiveFailures : ℕ
  pauseUntil : Option ℚ
  lastError : Option String
deriving DecidableEq

/-- `record_apify_success` (db.py): reset failures, clear pause and
error. -/
def recordApifySuccess (st : ApifyHealth) : ApifyHealth := ⟨0, none, none⟩

/-- `record_apify_failure(error, trigger_failures, cooldown_hours)`
(db.py): increment failures and persist the truncated error; when the
incremented count reaches `max(1, trigger_failures)`, set
`pause_until = NOW() + max(1, cooldown_hours) hours` and reset the
counter to 0.  Returns the state plus the `(failures, pause_until)` the
caller receives. -/
def recordApifyFailure (st : ApifyHealth) (error : String)
    (triggerFailures cooldownHours : ℤ) (now : ℚ) : ApifyHealth × ℕ × Option ℚ :=
  let failures := st.consecutiveFailures + 1
  let st₁ : ApifyHealth := ⟨failures, st.pauseUntil, some (strTake error 1000)⟩
  if (failures : ℤ) ≥ max 1 triggerFailures then
    let pause := now + 3600 * ((max 1 cooldownHours : ℤ) : ℚ)
    (⟨0, some pause, st₁.lastError⟩, failures, some pause)
  else (st₁, failures, none)

/-- C8 (counterexample): with `cooldown_hours = 0` the code pauses for
one hour (`max(1, cooldown_hours)`), not for `now + cooldown_hours` as
the claim states. -/
theorem record_failure_counterexample :
    (recordApifyFailure ⟨4, none, none⟩ "e" 5 0 0).1.pauseUntil = some ((0 : ℚ) + 3600 * 1)
    ∧ (recordApifyFailure ⟨4, none, none⟩ "e" 5 0 0).1.pauseUntil
        ≠ some ((0 : ℚ) + 3600 * 0) := by
  have h : recordApifyFailure ⟨4, none, none⟩ "e" 5 0 0
      = (⟨0, some ((0 : ℚ) + 3600 * ((max 1 0 : ℤ) : ℚ)), some (strTake "e" 1000)⟩, 5,
         some ((0 : ℚ) + 3600 * ((max 1 0 : ℤ) : ℚ))) := by
    rw [recordApifyFailure]
    rw [if_pos (by decide : ((4 + 1 : ℕ) : ℤ) ≥ max 1 5)]
  constructor
  · rw [h]
    norm_num
  · rw [h]
    intro hc
    rw [Option.some_inj] at hc
    norm_num at hc

/-- C8 (amended): `record_failure` increments `consecutive_failures` and,
exactly when the incremented count reaches `trigger_N` or more (the code
compares against `max(1, trigger_N)`, which coincides for every count
`≥ 1`), sets `pause_until = now + max(1, cooldown_hours) hours` and
resets the counter to 0 so the next trigger is a fresh window;
`record_success` resets `consecutive_failures` to 0 and clears
`pause_until` and `last_error`. -/
theorem record_failure_claim (st : ApifyHealth) (error : String)
    (triggerFailures cooldownHours : ℤ) (now : ℚ) :
    ((recordApifyFailure st error triggerFailures cooldownHours now).2.1
        = st.consecutiveFailures + 1)
    ∧ (((st.consecutiveFailures + 1 : ℕ) : ℤ) ≥ triggerFailures →
        (recordApifyFailure st error triggerFailures cooldownHours now).1
          = ⟨0, some (now + 3600 * ((max 1 cooldownHours : ℤ) : ℚ)),
              some (strTake error 1000)⟩
        ∧ (recordApifyFailure st error triggerFailures cooldownHours now).2.2
          = some (now + 3600 * ((max 1 cooldownHours : ℤ) : ℚ)))
    ∧ (¬ ((st.consecutiveFailures + 1 : ℕ) : ℤ) ≥ triggerFailures →
        (recordApifyFailure st error triggerFailures cooldownHours now).1
          = ⟨st.consecutiveFailures + 1, st.pauseUntil, some (strTake error 1000)⟩
        ∧ (recordApifyFailure st error triggerFailures cooldownHours now).2.2 = none)
    ∧ recordApifySuccess st = ⟨0, none, none⟩ := by
  have hiff : (((st.consecutiveFailures + 1 : ℕ) : ℤ) ≥ max 1 triggerFailures)
      ↔ (((st.consecutiveFailures + 1 : ℕ) : ℤ) ≥ triggerFailures) := by
    constructor
    · intro h
      exact le_trans (le_max_right _ _) h
    · intro h
      rw [ge_iff_le, max_le_iff]
      exact ⟨by exact_mod_cast Nat.succ_le_succ (Nat.zero_le _), h⟩
  refine ⟨?_, ?_, ?_, rfl⟩
  · rw [recordApifyFailure]
    split <;> rfl
  · intro htrig
    rw [recordApifyFailure, if_pos (hiff.mpr htrig)]
    exact ⟨rfl, rfl⟩
  · intro htrig
    rw [recordApifyFailure, if_neg (fun hc => htrig (hiff.mp hc))]
    exact ⟨rfl, rfl⟩

/-- Witness for `record_failure_claim`: the fifth consecutive failure
with trigger 5 and cooldown 6 pauses six hours ahead and resets the
counter. -/
theorem record_failure_claim_witness :
    (recordApifyFailure ⟨4, none, none⟩ "boom" 5 6 0).1
      = ⟨0, some ((0 : ℚ) + 3600 * ((max 1 6 : ℤ) : ℚ)), some (strTake "boom" 1000)⟩ :=
  ((record_failure_claim ⟨4, none, none⟩ "boom" 5 6 0).2.1 (by decide)).1

/-- A post-queue row is ready: `status IN ('pending','retry') AND
next_run_at <= NOW()` (db.py fetch conditions). -/
def postJobReady (now : ℚ) (j : PostJob) : Bool :=
  (j.status == "pending" || j.status == "retry") && decide (j.nextRunAt ≤ now)

/-- The queue fairness order `ORDER BY next_run_at ASC, id ASC`. -/
def jobLE (a b : PostJob) : Prop :=
  a.nextRunAt < b.nextRunAt ∨ (a.nextRunAt = b.nextRunAt ∧ a.id ≤ b.id)

instance : DecidableRel jobLE := fun a b => by
  unfold jobLE
  infer_instance

/-- Two post-queue rows share the batch key `(subscriber, handle,
checkpoint)`. -/
def sameKey (a b : PostJob) : Prop :=
  a.subscriberId = b.subscriberId ∧ a.handle = b.handle ∧ a.checkpoint = b.checkpoint

instance : DecidableRel sameKey := fun a b => by
  unfold sameKey
  infer_instance

/-- Modelled from the spec: `fetch_next_post_job_batch(N)` is imported by
cli.py but absent from the sources (only the single-row
`fetch_next_post_job` exists in db.py).  Per the spec's "Fetch next post
batch(N): claim up to N rows that share `(subscriber, handle,
checkpoint)` … If fewer than N same-key rows are ready, return what is
available", with the queue's `ORDER BY next_run_at ASC, id ASC` fairness:
take the first ready row and with it every ready row of its key, up to
N. -/
def fetchNextPostJobBatch (queue : List PostJob) (now : ℚ) (n : ℕ) : List PostJob :=
  let ready := List.insertionSort jobLE (queue.filter (postJobReady now))
  match ready with
  | [] => []
  | h :: _ => (ready.filter (fun j => decide (sameKey h j))).take n

/-- C6: the post-queue batch claim returns at most N rows, all ready rows
of the queue sharing one `(subscriber, handle, checkpoint)` key — exactly
`min N (ready same-key count)` of them, hence fewer than N only when
fewer are ready — and the worker then resolves each job of the batch
individually (one outcome per claimed job, in order). -/
theorem post_batch_claim (queue : List PostJob) (now : ℚ) (n : ℕ) :
    (fetchNextPostJobBatch queue now n).length ≤ n
    ∧ (∀ a ∈ fetchNextPostJobBatch queue now n, ∀ b ∈ fetchNextPostJobBatch queue now n,
        sameKey a b)
    ∧ (∀ j ∈ fetchNextPostJobBatch queue now n, j ∈ queue ∧ postJobReady now j = true)
    ∧ (∀ h t, fetchNextPostJobBatch queue now n = h :: t →
        (h :: t).length = min n (((List.insertionSort jobLE
          (queue.filter (postJobReady now))).filter (fun j => decide (sameKey h j))).length))
    ∧ (∀ (pauseUntil : Option ℚ) (syncOk : Bool) (gateSkip gotResult : PostJob → Bool)
        (newPause : Option ℚ) (backoff : List ℚ),
        (postJobsStep pauseUntil now (fetchNextPostJobBatch queue now n) syncOk gateSkip
          gotResult newPause backoff).map Prod.fst
          = (fetchNextPostJobBatch queue now n).map PostJob.id) := by
  have hperm := List.perm_insertionSort jobLE (queue.filter (postJobReady now))
  have hmem : ∀ j ∈ fetchNextPostJobBatch queue now n, j ∈ queue ∧ postJobReady now j = true := by
    intro j hj
    rw [fetchNextPostJobBatch] at hj
    rcases hr : List.insertionSort jobLE (queue.filter (postJobReady now)) with _ | ⟨h, rest⟩
    · rw [hr] at hj
      exact absurd hj (by simp)
    · rw [hr] at hj
      have h1 := List.mem_of_mem_take hj
      have h2 := List.mem_of_mem_filter h1
      rw [← hr] at h2
      have h3 := hperm.mem_iff.mp h2
      exact ⟨List.mem_of_mem_filter h3, List.of_mem_filter h3⟩
  have hkey : ∀ a ∈ fetchNextPostJobBatch queue now n,
      ∀ b ∈ fetchNextPostJobBatch queue now n, sameKey a b := by
    intro a ha b hb
    rw [fetchNextPostJobBatch] at ha hb
    rcases hr : List.insertionSort jobLE (queue.filter (postJobReady now)) with _ | ⟨h, rest⟩
    · rw [hr] at ha
      exact absurd ha (by simp)
    · rw [hr] at ha hb
      have ha' : a ∈ ((h :: rest).filter (fun j => decide (sameKey h j))).take n := ha
      have hb' : b ∈ ((h :: rest).filter (fun j => decide (sameKey h j))).take n := hb
      have hka : sameKey h a := by
        have h2 := (List.mem_filter.mp (List.mem_of_mem_take ha')).2
        exact of_decide_eq_true h2
      have hkb : sameKey h b := by
        have h2 := (List.mem_filter.mp (List.mem_of_mem_take hb')).2
        exact of_decide_eq_true h2
      exact ⟨hka.1.symm.trans hkb.1, hka.2.1.symm.trans hkb.2.1, hka.2.2.symm.trans hkb.2.2⟩
  refine ⟨?_, hkey, hmem, ?_, ?_⟩
  · rw [fetchNextPostJobBatch]
    split
    · simp
    · rw [List.length_take]
      exact min_le_left _ _
  · intro h t hht
    rw [fetchNextPostJobBatch] at hht
    rcases hr : List.insertionSort jobLE (queue.filter (postJobReady now)) with _ | ⟨h0, rest⟩
    · rw [hr] at hht
      exact absurd hht (by simp)
    · rw [hr] at hht
      have hht' : ((h0 :: rest).filter (fun j => decide (sameKey h0 j))).take n = h :: t := hht
      have hh0 : h0 = h := by
        have hfirst : (h0 :: rest).filter (fun j => decide (sameKey h0 j))
            = h0 :: rest.filter (fun j => decide (sameKey h0 j)) := by
          rw [List.filter_cons_of_pos]
          exact decide_eq_true ⟨rfl, rfl, rfl⟩
        have hne := hht'
        rw [hfirst] at hne
        rcases n with _ | n
        · exact absurd hne (by simp)
        · rw [List.take_succ_cons] at hne
          exact (List.cons_eq_cons.mp hne).1
      subst hh0
      rw [← hht', List.length_take]
  · intro pauseUntil syncOk gateSkip gotResult newPause backoff
    rcases pauseUntil with _ | p
    · have hstep : postJobsStep none now (fetchNextPostJobBatch queue now n) syncOk gateSkip
          gotResult newPause backoff
          = (fetchNextPostJobBatch queue now n).map (fun pj =>
              (pj.id, resolvePostJob pj syncOk gateSkip gotResult newPause backoff now)) := rfl
      rw [hstep, List.map_map]
      rfl
    · have hstep : postJobsStep (some p) now (fetchNextPostJobBatch queue now n) syncOk gateSkip
          gotResult newPause backoff
          = if p > now then (fetchNextPostJobBatch queue now n).map (fun pj =>
              (pj.id, JobOutcome.cooldownRetry pj.attempt p))
            else (fetchNextPostJobBatch queue now n).map (fun pj =>
              (pj.id, resolvePostJob pj syncOk gateSkip gotResult newPause backoff now)) := rfl
      rw [hstep]
      by_cases hlt : p > now
      · rw [if_pos hlt, List.map_map]
        rfl
      · rw [if_neg hlt, List.map_map]
        rfl

/-- Witness for `post_batch_claim` at a concrete two-job queue. -/
theorem post_batch_claim_witness :
    (fetchNextPostJobBatch [⟨1, 0, "h", "u1", "d3", false, "pending", 0, 0⟩,
      ⟨2, 0, "h", "u2", "d3", false, "pending", 0, 0⟩] 0 10).length ≤ 10 :=
  (post_batch_claim [⟨1, 0, "h", "u1", "d3", false, "pending", 0, 0⟩,
    ⟨2, 0, "h", "u2", "d3", false, "pending", 0, 0⟩] 0 10).1

/-! ### SHA-256 (the `hashlib.sha256(...).hexdigest()` of the alert
dedupe key), over `ℕ` with explicit 32-bit reduction. -/

def w32 (n : ℕ) : ℕ := n % 4294967296

def rotr32 (n x : ℕ) : ℕ := w32 ((x >>> n) ||| (x <<< (32 - n)))

def not32 (x : ℕ) : ℕ := x ^^^ 4294967295

def shaCh (x y z : ℕ) : ℕ := (x &&& y) ^^^ (not32 x &&& z)

def shaMaj (x y z : ℕ) : ℕ := (x &&& y) ^^^ (x &&& z) ^^^ (y &&& z)

def bigSigma0 (x : ℕ) : ℕ := rotr32 2 x ^^^ rotr32 13 x ^^^ rotr32 22 x

def bigSigma1 (x : ℕ) : ℕ := rotr32 6 x ^^^ rotr32 11 x ^^^ rotr32 25 x

def smallSigma0 (x : ℕ) : ℕ := rotr32 7 x ^^^ rotr32 18 x ^^^ (x >>> 3)

def smallSigma1 (x : ℕ) : ℕ := rotr32 17 x ^^^ rotr32 19 x ^^^ (x >>> 10)

def shaK : List ℕ :=
  [1116352408, 1899447441, 3049323471, 3921009573,
   961987163, 1508970993, 2453635748, 2870763221,
   3624381080, 310598401, 607225278, 1426881987,
   1925078388, 2162078206, 2614888103, 3248222580,
   3835390401, 4022224774, 264347078, 604807628,
   770255983, 1249150122, 1555081692, 1996064986,
   2554220882, 2821834349, 2952996808, 3210313671,
   3336571891, 3584528711, 113926993, 338241895,
   666307205, 773529912, 1294757372, 1396182291,
   1695183700, 1986661051, 2177026350, 2456956037,
   2730485921, 2820302411, 3259730800, 3345764771,
   3516065817, 3600352804, 4094571909, 275423344,
   430227734, 506948616, 659060556, 883997877,
   958139571, 1322822218, 1537002063, 1747873779,
   1955562222, 2024104815, 2227730452, 2361852424,
   2428436474, 2756734187, 3204031479, 3329325298]

def shaH0 : List ℕ :=
  [1779033703, 3144134277, 1013904242, 2773480762,
   1359893119, 2600822924, 528734635, 1541459225]

def extendSchedule (block : List ℕ) : List ℕ :=
  (List.range 48).foldl (fun ws _ =>
    let i := ws.length
    ws ++ [w32 (smallSigma1 (ws.getD (i - 2) 0) + ws.getD (i - 7) 0 +
      smallSigma0 (ws.getD (i - 15) 0) + ws.getD (i - 16) 0)]) block

def shaCompress (hs : List ℕ) (block : List ℕ) : List ℕ :=
  let ws := extendSchedule block
  let final := (List.range 64).foldl (fun st i =>
    match st with
    | [a, b, c, d, e, f, g, h] =>
      let t1 := w32 (h + bigSigma1 e + shaCh e f g + shaK.getD i 0 + ws.getD i 0)
      let t2 := w32 (bigSigma0 a + shaMaj a b c)
      [w32 (t1 + t2), a, b, c, w32 (d + t1), e, f, g]
    | other => other) hs
  List.zipWith (fun x y => w32 (x + y)) hs final

def bytesBE (k n : ℕ) : List ℕ :=
  (List.range k).map (fun i => (n >>> (8 * (k - 1 - i))) % 256)

def sha256Pad (msg : List ℕ) : List ℕ :=
  let z := (119 - (msg.length % 64)) % 64
  msg ++ [128] ++ List.replicate z 0 ++ bytesBE 8 (8 * msg.length)

def toWords : List ℕ → List ℕ
  | b0 :: b1 :: b2 :: b3 :: rest =>
    (b0 * 16777216 + b1 * 65536 + b2 * 256 + b3) :: toWords rest
  | _ => []

def hexChar (n : ℕ) : Char :=
  if n < 10 then Char.ofNat (48 + n) else Char.ofNat (87 + n)

def hexDigits (k n : ℕ) : List Char :=
  (List.range k).map (fun i => hexChar ((n >>> (4 * (k - 1 - i))) % 16))

def sha256Bytes (msg : List ℕ) : List ℕ :=
  let ws := toWords (sha256Pad msg)
  let blocks := (List.range (ws.length / 16)).map (fun i => (ws.drop (16 * i)).take 16)
  blocks.foldl shaCompress shaH0

/-- `hashlib.sha256(bytes).hexdigest()`. -/
def sha256Hex (msg : List ℕ) : String :=
  String.mk ((sha256Bytes msg).map (hexDigits 8) |>.flatten)

/-- UTF-8 encoding of one character (`str.encode("utf-8")`). -/
def utf8Bytes (c : Char) : List ℕ :=
  let n := c.toNat
  if n < 128 then [n]
  else if n < 2048 then [192 + n / 64, 128 + n % 64]
  else if n < 65536 then [224 + n / 4096, 128 + (n / 64) % 64, 128 + n % 64]
  else [240 + n / 262144, 128 + (n / 4096) % 64, 128 + (n / 64) % 64, 128 + n % 64]

/-- UTF-8 bytes of a string. -/
def strUtf8 (s : String) : List ℕ :=
  (s.data.map utf8Bytes).flatten

/-- The dedupe base string of `upsert_alert_candidate` (db.py):
`f"{feed_id}|{feeder_id or 0}|{alert_type}|{(title or '').strip().lower()}|{day_bucket}"`
with `day_bucket` the current UTC date rendered `YYYY-MM-DD`. -/
def alertDedupeBase (feedId : ℤ) (feederId : Option ℤ)
    (alertType title dayBucket : String) : String :=
  toString feedId ++ "|" ++ toString (feederId.getD 0) ++ "|" ++ alertType ++ "|" ++
    pyLower (pyStrip title) ++ "|" ++ dayBucket

/-- The dedupe key of `upsert_alert_candidate`:
`hashlib.sha256(base.encode("utf-8")).hexdigest()`. -/
def alertDedupeKey (feedId : ℤ) (feederId : Option ℤ)
    (alertType title dayBucket : String) : String :=
  sha256Hex (strUtf8 (alertDedupeBase feedId feederId alertType title dayBucket))

/-- The dedupe key in the exact format the claim states: sha256 of
"feed_id|feeder_id-or-0|alert_type|trimmed lowercased title|UTC date". -/
def claimDedupeKey (feedId : ℤ) (feederId : Option ℤ)
    (alertType title dayBucket : String) : String :=
  sha256Hex (strUtf8 (toString feedId ++ "|" ++ toString (feederId.getD 0) ++ "|" ++
    alertType ++ "|" ++ pyLower (pyStrip title) ++ "|" ++ dayBucket))

/-- An `alert_candidates` row (db.py; dedupe-relevant columns). -/
structure AlertRow where
  feedId : ℤ
  feederId : Option ℤ
  alertType : String
  title : String
  dedupeKey : String
  status : String
  createdAt : ℚ
deriving DecidableEq

/-- The statuses the 24-hour dedupe window considers live. -/
def alertActiveStatuses : List String := ["candidate", "selected", "sent"]

/-- Embedding of `upsert_alert_candidate` (db.py): the guarded
`INSERT … SELECT … WHERE NOT EXISTS (same feed, COALESCE(feeder,0), type
and title within 24 hours with live status) ON CONFLICT (feed_id,
alert_dedupe_key) DO NOTHING` (a partial unique index over rows with a
non-empty key), inserting with status `candidate` at `NOW()`.  Columns
not involved in deduplication are elided from `AlertRow`. -/
def upsertAlertCandidate (table : List AlertRow) (feedId : ℤ) (feederId : Option ℤ)
    (alertType title dayBucket : String) (now : ℚ) : List AlertRow :=
  let dedupeKey := alertDedupeKey feedId feederId alertType title dayBucket
  let blocked24h := table.any (fun r =>
    decide (r.feedId = feedId) && decide (r.feederId.getD 0 = feederId.getD 0) &&
    decide (r.alertType = alertType) && decide (r.title = title) &&
    decide (now - 86400 ≤ r.createdAt) &&
    decide (r.status ∈ alertActiveStatuses))
  let conflict := table.any (fun r =>
    decide (r.dedupeKey ≠ "") && decide (r.feedId = feedId) && decide (r.dedupeKey = dedupeKey))
  if blocked24h || conflict then table
  else table ++ [⟨feedId, feederId, alertType, title, dedupeKey, "candidate", now⟩]

/-- "At most one row per `(feed_id, dedupe_key)`" (over rows with a
non-empty key, the scope of the partial unique index). -/
def alertKeyUnique (table : List AlertRow) : Prop :=
  table.Pairwise (fun a b => ¬(a.feedId = b.feedId ∧ a.dedupeKey = b.dedupeKey ∧
    a.dedupeKey ≠ ""))

/-- "No two rows created within 24 hours share `(feed_id, feeder_id,
alert_type, title)` while having live status." -/
def alertQuadFresh (table : List AlertRow) : Prop :=
  table.Pairwise (fun a b => ¬(a.feedId = b.feedId ∧ a.feederId = b.feederId ∧
    a.alertType = b.alertType ∧ a.title = b.title ∧ |a.createdAt - b.createdAt| ≤ 86400 ∧
    a.status ∈ alertActiveStatuses ∧ b.status ∈ alertActiveStatuses))

/-- C9: an alert-candidate insert either does nothing or appends one row
whose dedupe key is sha256 of
"feed_id|feeder_id-or-0|alert_type|trimmed lowercased title|UTC date";
both dedupe invariants — at most one row per `(feed_id, dedupe_key)` and
no two live rows within 24 hours sharing
`(feed_id, feeder_id, alert_type, title)` — are preserved. -/
theorem alert_dedupe_claim (table : List AlertRow) (feedId : ℤ) (feederId : Option ℤ)
    (alertType title dayBucket : String) (now : ℚ)
    (hkey : alertKeyUnique table) (hquad : alertQuadFresh table)
    (hpast : ∀ r ∈ table, r.createdAt ≤ now) :
    (upsertAlertCandidate table feedId feederId alertType title dayBucket now = table
      ∨ upsertAlertCandidate table feedId feederId alertType title dayBucket now
        = table ++ [⟨feedId, feederId, alertType, title,
            claimDedupeKey feedId feederId alertType title dayBucket, "candidate", now⟩])
    ∧ alertKeyUnique (upsertAlertCandidate table feedId feederId alertType title dayBucket now)
    ∧ alertQuadFresh (upsertAlertCandidate table feedId feederId alertType title dayBucket now) := by
  have hkeyeq : claimDedupeKey feedId feederId alertType title dayBucket
      = alertDedupeKey feedId feederId alertType title dayBucket := rfl
  rw [upsertAlertCandidate]
  by_cases hb : (table.any (fun r =>
      decide (r.feedId = feedId) && decide (r.feederId.getD 0 = feederId.getD 0) &&
      decide (r.alertType = alertType) && decide (r.title = title) &&
      decide (now - 86400 ≤ r.createdAt) &&
      decide (r.status ∈ alertActiveStatuses))
    || table.any (fun r =>
      decide (r.dedupeKey ≠ "") && decide (r.feedId = feedId) &&
      decide (r.dedupeKey = alertDedupeKey feedId feederId alertType title dayBucket))) = true
  · rw [if_pos hb]
    exact ⟨Or.inl rfl, hkey, hquad⟩
  · rw [if_neg hb]
    rw [Bool.or_eq_true] at hb
    push_neg at hb
    have hnoblock := Bool.eq_false_iff.mpr hb.1
    have hnoconf := Bool.eq_false_iff.mpr hb.2
    rw [List.any_eq_false] at hnoblock hnoconf
    refine ⟨Or.inr (by rw [hkeyeq]), ?_, ?_⟩
    · rw [alertKeyUnique, List.pairwise_append]
      refine ⟨hkey, List.pairwise_singleton _ _, ?_⟩
      intro a ha b hbmem
      rw [List.mem_singleton] at hbmem
      subst hbmem
      rintro ⟨h1, h2, h3⟩
      refine hnoconf a ha ?_
      simp only [Bool.and_eq_true]
      exact ⟨⟨decide_eq_true h3, decide_eq_true h1⟩, decide_eq_true h2⟩
    · rw [alertQuadFresh, List.pairwise_append]
      refine ⟨hquad, List.pairwise_singleton _ _, ?_⟩
      intro a ha b hbmem
      rw [List.mem_singleton] at hbmem
      subst hbmem
      rintro ⟨h1, h2, h3, h4, h5, h6, h7⟩
      have hfresh : now - 86400 ≤ a.createdAt := by
        have hle := hpast a ha
        have habs : |a.createdAt - now| = now - a.createdAt := by
          rw [abs_sub_comm]
          exact abs_of_nonneg (by linarith)
        rw [habs] at h5
        linarith
      refine hnoblock a ha ?_
      simp only [Bool.and_eq_true]
      exact ⟨⟨⟨⟨⟨decide_eq_true h1, decide_eq_true (by rw [h2])⟩, decide_eq_true h3⟩,
        decide_eq_true h4⟩, decide_eq_true hfresh⟩, decide_eq_true h6⟩

/-- Witness for `alert_dedupe_claim`: the first insert into an empty
table keeps both dedupe invariants. -/
theorem alert_dedupe_claim_witness :
    alertKeyUnique (upsertAlertCandidate [] 1 none "velocity_spike" " Hot Post "
      "2026-10-12" 0) :=
  (alert_dedupe_claim [] 1 none "velocity_spike" " Hot Post " "2026-10-12" 0
    List.Pairwise.nil List.Pairwise.nil (by simp)).2.1
